import Mathlib

/-! SceneManager: texture registry, material registry, transform composition, render script.

A shallow embedding of `Source/SceneManager.cpp`.

* The object's fields are a record `SceneManager F`; `F` is the scalar type standing for `float`
  (any field; the statements about matrices hold in particular over the real numbers).
* Every method is a function from the state before the call to `Option (Res F α)`: the returned
  value, the state after the call and the calls made to the collaborators (shader manager, mesh
  utility, OpenGL, stb_image, console), in order. `none` stands for undefined behaviour of the
  C++ code: an array access outside the bounds of `m_textureIDs`, or a call through a null
  `m_pShaderManager`.
* What the outside world answers (the decoded image, the texture name written by
  `glGenTextures`, the indeterminate contents of an uninitialised local) is an explicit argument.
-/

/-! ## Data model -/

/-- An OpenGL object name (`GLuint`, an unsigned 32-bit integer), kept as a natural number. -/
abbrev GLuint := Nat

/-- Conversion of an unsigned 32-bit value to `int` (two's complement), as performed by the
assignment `textureID = m_textureIDs[index].ID` in `FindTextureID`. -/
def GLuintToInt (h : GLuint) : Int :=
  if h % 2 ^ 32 < 2 ^ 31 then ((h % 2 ^ 32 : Nat) : Int) else ((h % 2 ^ 32 : Nat) : Int) - 2 ^ 32

/-- One slot of the texture array: `m_textureIDs[i].tag` and `m_textureIDs[i].ID`. -/
structure TEXTURE_INFO where
  tag : String
  ID : GLuint
  deriving DecidableEq, Repr

namespace glm

/-- The type `glm::vec2`. -/
structure vec2 (F : Type) where
  x : F
  y : F
  deriving DecidableEq, Repr

/-- The type `glm::vec3`. -/
structure vec3 (F : Type) where
  x : F
  y : F
  z : F
  deriving DecidableEq, Repr

/-- The type `glm::vec4` (components `r g b a`). -/
structure vec4 (F : Type) where
  r : F
  g : F
  b : F
  a : F
  deriving DecidableEq, Repr

/-- The type `glm::mat4`, read as a mathematical matrix: entry `M i j` is row `i`, column `j`
(glm stores it as `M[j][i]`). -/
abbrev mat4 (F : Type) := Matrix (Fin 4) (Fin 4) F

/-- The functions `cos`, `sin` and the constant behind `glm::radians` are those of the scalar
type; they are taken as given. -/
structure Trig (F : Type) where
  cos : F → F
  sin : F → F
  pi : F

variable {F : Type} [Field F]

/-- The function `glm::radians`: degrees times `pi / 180`. -/
def radians (T : Trig F) (degrees : F) : F := degrees * (T.pi / 180)

/-- The function `glm::scale(v)`: the diagonal matrix `diag(v.x, v.y, v.z, 1)`. -/
def scale (v : vec3 F) : mat4 F :=
  !![v.x, 0, 0, 0;
     0, v.y, 0, 0;
     0, 0, v.z, 0;
     0, 0, 0, 1]

/-- The function `glm::translate(v)`: the identity with `v` in the fourth column. -/
def translate (v : vec3 F) : mat4 F :=
  !![1, 0, 0, v.x;
     0, 1, 0, v.y;
     0, 0, 1, v.z;
     0, 0, 0, 1]

/-- The function `glm::rotate(angle, axis)` for a unit `axis` (glm normalises the axis first;
the three call sites pass the unit vectors of the coordinate axes). With `c = cos angle`,
`s = sin angle`, `t = (1 - c) * axis`, glm fills `Rotate[col][row]`; here written row by row. -/
def rotate (T : Trig F) (angle : F) (axis : vec3 F) : mat4 F :=
  let c := T.cos angle
  let s := T.sin angle
  let tx := (1 - c) * axis.x
  let ty := (1 - c) * axis.y
  let tz := (1 - c) * axis.z
  !![c + tx * axis.x, ty * axis.x - s * axis.z, tz * axis.x + s * axis.y, 0;
     tx * axis.y + s * axis.z, c + ty * axis.y, tz * axis.y - s * axis.x, 0;
     tx * axis.z - s * axis.y, ty * axis.z + s * axis.x, c + tz * axis.z, 0;
     0, 0, 0, 1]

end glm

/-- A material entry (`OBJECT_MATERIAL`). -/
structure OBJECT_MATERIAL (F : Type) where
  ambientColor : glm.vec3 F
  ambientStrength : F
  diffuseColor : glm.vec3 F
  specularColor : glm.vec3 F
  shininess : F
  tag : String
  deriving DecidableEq, Repr

/-- A draw request to the mesh utility (`m_basicMeshes->Draw...Mesh(...)`), with the arguments
written at the call site (`DrawCylinderMesh()` has none and leaves the three flags to the
defaults of the mesh utility). -/
inductive MeshDraw where
  | DrawPlaneMesh
  | DrawCylinderMesh (args : List Bool)
  | DrawTorusMesh
  | DrawBoxMesh
  | DrawSphereMesh
  deriving DecidableEq, Repr

/-- A call made to a collaborator: the shader manager, the mesh utility, OpenGL, stb_image or the
console. `glDeleteTextures` is the OpenGL call that releases a texture name; the source never
makes it. -/
inductive Call (F : Type) where
  | setMat4Value (name : String) (value : glm.mat4 F)
  | setIntValue (name : String) (value : Int)
  | setVec4Value (name : String) (value : glm.vec4 F)
  | setSampler2DValue (name : String) (value : Int)
  | setVec2Value (name : String) (value : glm.vec2 F)
  | setVec3Value (name : String) (value : glm.vec3 F)
  | setFloatValue (name : String) (value : F)
  | draw (mesh : MeshDraw)
  | stbi_set_flip_vertically_on_load (flag : Bool)
  | stbi_load (filename : String)
  | stbi_image_free
  | glGenTextures (n : Nat) (name : GLuint)
  | glDeleteTextures (n : Nat) (name : GLuint)
  | glBindTexture (target : String) (texture : GLuint)
  | glActiveTexture (textureUnit : Nat)
  | glTexParameteri (target : String) (pname : String) (param : String)
  | glTexImage2D (internalformat : String) (width : Int) (height : Int) (format : String)
  | glGenerateMipmap (target : String)
  | cout (text : String)

/-- The fields of the `SceneManager` object.

* `m_pShaderManager`: `true` when the pointer is not `NULL`.
* `m_textureIDs`: the fixed-capacity texture array; the length of the list is its capacity.
* `m_loadedTextures`: the number of loaded textures (a C++ `int` that is only ever incremented).
* `m_objectMaterials`: the material vector. -/
structure SceneManager (F : Type) where
  m_pShaderManager : Bool
  m_textureIDs : List TEXTURE_INFO
  m_loadedTextures : Nat
  m_objectMaterials : List (OBJECT_MATERIAL F)

/-- Result of a call with defined behaviour: returned value, state afterwards, collaborator calls. -/
structure Res (F : Type) (α : Type) where
  ret : α
  st : SceneManager F
  out : List (Call F)

/-- What `stbi_load` reports for a file it could decode. -/
structure Image where
  width : Int
  height : Int
  colorChannels : Int
  deriving DecidableEq, Repr

/-- Uniform names (the globals of the anonymous namespace). -/
def g_ModelName : String := "model"
/-- Uniform name of the object colour. -/
def g_ColorValueName : String := "objectColor"
/-- Uniform name of the sampler. -/
def g_TextureValueName : String := "objectTexture"
/-- Uniform name of the texture-enable flag. -/
def g_UseTextureName : String := "bUseTexture"
/-- Uniform name of the lighting flag. -/
def g_UseLightingName : String := "bUseLighting"

namespace SceneManager

variable {F : Type}

/-- The registry is in a state the program can be in without undefined behaviour having
happened: the loaded count does not exceed the capacity of the array, and the capacity is
indexable by an `int`. -/
def WF (st : SceneManager F) : Prop :=
  st.m_loadedTextures ≤ st.m_textureIDs.length ∧ st.m_textureIDs.length < 2 ^ 31

instance (st : SceneManager F) : Decidable st.WF :=
  inferInstanceAs (Decidable (_ ∧ _))

/-- Tags of the loaded entries (indices below `m_loadedTextures`). -/
def loadedTags (st : SceneManager F) : List String :=
  (st.m_textureIDs.take st.m_loadedTextures).map TEXTURE_INFO.tag

/-! ## Texture registry -/

/-- The loop of `FindTextureID`, from `index` on, with `remaining = m_loadedTextures - index`
iterations left before `index < m_loadedTextures` fails. A matching tag sets `textureID` and
`bFound`, which ends the loop; otherwise `index++`. Falling out of the loop leaves
`textureID = -1`. -/
def FindTextureID.loop (textureIDs : List TEXTURE_INFO) (tag : String) :
    Nat → Nat → Option Int
  | 0, _ => some (-1)
  | remaining + 1, index =>
    match textureIDs[index]? with
    | none => none
    | some e =>
      if e.tag = tag then some (GLuintToInt e.ID)
      else FindTextureID.loop textureIDs tag remaining (index + 1)

/-- The method `SceneManager::FindTextureID`. -/
def FindTextureID (st : SceneManager F) (tag : String) : Option (Res F Int) :=
  (FindTextureID.loop st.m_textureIDs tag st.m_loadedTextures 0).map fun textureID =>
    { ret := textureID, st := st, out := [] }

/-- The loop of `FindTextureSlot`: as in `FindTextureID`, but a match stores `index`. -/
def FindTextureSlot.loop (textureIDs : List TEXTURE_INFO) (tag : String) :
    Nat → Nat → Option Int
  | 0, _ => some (-1)
  | remaining + 1, index =>
    match textureIDs[index]? with
    | none => none
    | some e =>
      if e.tag = tag then some (index : Int)
      else FindTextureSlot.loop textureIDs tag remaining (index + 1)

/-- The method `SceneManager::FindTextureSlot`. -/
def FindTextureSlot (st : SceneManager F) (tag : String) : Option (Res F Int) :=
  (FindTextureSlot.loop st.m_textureIDs tag st.m_loadedTextures 0).map fun textureSlot =>
    { ret := textureSlot, st := st, out := [] }

/-- The registration at the end of `CreateGLTexture`:
`m_textureIDs[m_loadedTextures].ID = textureID; m_textureIDs[m_loadedTextures].tag = tag;
m_loadedTextures++`. Writing at an index that is not below the capacity is undefined. -/
def registerTexture (st : SceneManager F) (textureID : GLuint) (tag : String) :
    Option (SceneManager F) :=
  if st.m_loadedTextures < st.m_textureIDs.length then
    some { st with
      m_textureIDs := st.m_textureIDs.set st.m_loadedTextures { tag := tag, ID := textureID }
      m_loadedTextures := st.m_loadedTextures + 1 }
  else none

/-- The OpenGL calls of `CreateGLTexture` between a successful decode and the channel test. -/
def CreateGLTexture.setup (textureID : GLuint) : List (Call F) :=
  [ Call.glGenTextures 1 textureID,
    Call.glBindTexture "GL_TEXTURE_2D" textureID,
    Call.glTexParameteri "GL_TEXTURE_2D" "GL_TEXTURE_WRAP_S" "GL_REPEAT",
    Call.glTexParameteri "GL_TEXTURE_2D" "GL_TEXTURE_WRAP_T" "GL_REPEAT",
    Call.glTexParameteri "GL_TEXTURE_2D" "GL_TEXTURE_MIN_FILTER" "GL_LINEAR",
    Call.glTexParameteri "GL_TEXTURE_2D" "GL_TEXTURE_MAG_FILTER" "GL_LINEAR" ]

/-- The calls of `CreateGLTexture` after the upload: mipmaps, free the image, unbind. -/
def CreateGLTexture.finish : List (Call F) :=
  [ Call.glGenerateMipmap "GL_TEXTURE_2D",
    Call.stbi_image_free,
    Call.glBindTexture "GL_TEXTURE_2D" 0 ]

/-- The method `SceneManager::CreateGLTexture`. `image` is what `stbi_load` returns for
`filename` (`none` for a null pointer), `textureID` is the name `glGenTextures` writes. -/
def CreateGLTexture (st : SceneManager F) (image : Option Image) (textureID : GLuint)
    (filename : String) (tag : String) : Option (Res F Bool) :=
  let load : List (Call F) := [Call.stbi_set_flip_vertically_on_load true, Call.stbi_load filename]
  match image with
  | some img =>
    let loaded : List (Call F) := load ++
      [Call.cout ("Successfully loaded image:" ++ filename ++ ", width:" ++ toString img.width
        ++ ", height:" ++ toString img.height ++ ", channels:" ++ toString img.colorChannels ++ "\n")]
      ++ CreateGLTexture.setup textureID
    if img.colorChannels = 3 then
      (registerTexture st textureID tag).map fun st1 =>
        { ret := true, st := st1,
          out := loaded ++ [Call.glTexImage2D "GL_RGB8" img.width img.height "GL_RGB"]
            ++ CreateGLTexture.finish }
    else if img.colorChannels = 4 then
      (registerTexture st textureID tag).map fun st1 =>
        { ret := true, st := st1,
          out := loaded ++ [Call.glTexImage2D "GL_RGBA8" img.width img.height "GL_RGBA"]
            ++ CreateGLTexture.finish }
    else
      some { ret := false, st := st,
             out := loaded ++ [Call.cout ("Not implemented to handle image with "
               ++ toString img.colorChannels ++ " channels\n")] }
  | none =>
    some { ret := false, st := st,
           out := load ++ [Call.cout ("Could not load image:" ++ filename ++ "\n")] }

/-- The loop of `BindGLTextures`: for `i` from the given index, `glActiveTexture(GL_TEXTURE0 + i)`
then `glBindTexture(GL_TEXTURE_2D, m_textureIDs[i].ID)`. -/
def BindGLTextures.loop (textureIDs : List TEXTURE_INFO) : Nat → Nat → Option (List (Call F))
  | 0, _ => some []
  | remaining + 1, i =>
    match textureIDs[i]? with
    | none => none
    | some e =>
      (BindGLTextures.loop textureIDs remaining (i + 1)).map fun rest =>
        Call.glActiveTexture i :: Call.glBindTexture "GL_TEXTURE_2D" e.ID :: rest

/-- The method `SceneManager::BindGLTextures`. -/
def BindGLTextures (st : SceneManager F) : Option (Res F Unit) :=
  (BindGLTextures.loop st.m_textureIDs st.m_loadedTextures 0).map fun calls =>
    { ret := (), st := st, out := calls }

/-- The loop of `DestroyGLTextures`: for `i` from the given index,
`glGenTextures(1, &m_textureIDs[i].ID)`, which overwrites the stored name with the name
`generated i` that OpenGL hands out at that call. -/
def DestroyGLTextures.loop (generated : Nat → GLuint) :
    Nat → Nat → List TEXTURE_INFO → Option (List TEXTURE_INFO × List (Call F))
  | 0, _, textureIDs => some (textureIDs, [])
  | remaining + 1, i, textureIDs =>
    match textureIDs[i]? with
    | none => none
    | some e =>
      (DestroyGLTextures.loop generated remaining (i + 1)
          (textureIDs.set i { e with ID := generated i })).map fun r =>
        (r.1, Call.glGenTextures 1 (generated i) :: r.2)

/-- The method `SceneManager::DestroyGLTextures`. -/
def DestroyGLTextures (st : SceneManager F) (generated : Nat → GLuint) : Option (Res F Unit) :=
  (DestroyGLTextures.loop generated st.m_loadedTextures 0 st.m_textureIDs).map fun r =>
    { ret := (), st := { st with m_textureIDs := r.1 }, out := r.2 }

/-! ## Material registry -/

/-- The loop of `FindMaterial`, from `index` on, with `remaining = size - index`. A matching tag
copies five fields into `material` and sets `bFound`, which ends the loop. -/
def FindMaterial.loop (objectMaterials : List (OBJECT_MATERIAL F)) (tag : String) :
    Nat → Nat → OBJECT_MATERIAL F → Option (OBJECT_MATERIAL F)
  | 0, _, material => some material
  | remaining + 1, index, material =>
    match objectMaterials[index]? with
    | none => none
    | some m =>
      if m.tag = tag then
        some { material with
          ambientColor := m.ambientColor
          ambientStrength := m.ambientStrength
          diffuseColor := m.diffuseColor
          specularColor := m.specularColor
          shininess := m.shininess }
      else FindMaterial.loop objectMaterials tag remaining (index + 1) material

/-- The method `SceneManager::FindMaterial`. `material` is the content of the reference argument
before the call; the returned pair is the boolean result and its content afterwards. -/
def FindMaterial (st : SceneManager F) (tag : String) (material : OBJECT_MATERIAL F) :
    Option (Res F (Bool × OBJECT_MATERIAL F)) :=
  if st.m_objectMaterials.length = 0 then
    some { ret := (false, material), st := st, out := [] }
  else
    (FindMaterial.loop st.m_objectMaterials tag st.m_objectMaterials.length 0 material).map
      fun m => { ret := (true, m), st := st, out := [] }

/-! ## Shader state -/

/-- The method `SceneManager::SetTransformations`. -/
def SetTransformations [Field F] (T : glm.Trig F) (st : SceneManager F) (scaleXYZ : glm.vec3 F)
    (XrotationDegrees YrotationDegrees ZrotationDegrees : F) (positionXYZ : glm.vec3 F) :
    Option (Res F Unit) :=
  let scale := glm.scale scaleXYZ
  let rotationX := glm.rotate T (glm.radians T XrotationDegrees) ⟨1, 0, 0⟩
  let rotationY := glm.rotate T (glm.radians T YrotationDegrees) ⟨0, 1, 0⟩
  let rotationZ := glm.rotate T (glm.radians T ZrotationDegrees) ⟨0, 0, 1⟩
  let translation := glm.translate positionXYZ
  let modelView := translation * rotationX * rotationY * rotationZ * scale
  if st.m_pShaderManager then
    some { ret := (), st := st, out := [Call.setMat4Value g_ModelName modelView] }
  else
    some { ret := (), st := st, out := [] }

/-- The method `SceneManager::SetShaderColor` (`false` is passed to `setIntValue` as `0`). -/
def SetShaderColor (st : SceneManager F) (redColorValue greenColorValue blueColorValue
    alphaValue : F) : Option (Res F Unit) :=
  let currentColor : glm.vec4 F := ⟨redColorValue, greenColorValue, blueColorValue, alphaValue⟩
  if st.m_pShaderManager then
    some { ret := (), st := st,
           out := [Call.setIntValue g_UseTextureName 0,
                   Call.setVec4Value g_ColorValueName currentColor] }
  else
    some { ret := (), st := st, out := [] }

/-- The method `SceneManager::SetShaderTexture` (`true` is passed to `setIntValue` as `1`). -/
def SetShaderTexture (st : SceneManager F) (textureTag : String) : Option (Res F Unit) :=
  if st.m_pShaderManager then
    match FindTextureSlot st textureTag with
    | none => none
    | some r =>
      some { ret := (), st := r.st,
             out := [Call.setIntValue g_UseTextureName 1] ++ r.out
               ++ [Call.setSampler2DValue g_TextureValueName r.ret] }
  else
    some { ret := (), st := st, out := [] }

/-- The method `SceneManager::SetTextureUVScale`. -/
def SetTextureUVScale (st : SceneManager F) (u v : F) : Option (Res F Unit) :=
  if st.m_pShaderManager then
    some { ret := (), st := st, out := [Call.setVec2Value "UVscale" ⟨u, v⟩] }
  else
    some { ret := (), st := st, out := [] }

/-- The method `SceneManager::SetShaderMaterial`. `uninit` is the indeterminate content of the
local `OBJECT_MATERIAL material;` before `FindMaterial` fills it. The five uniform calls go
through `m_pShaderManager` without a null test. -/
def SetShaderMaterial (st : SceneManager F) (uninit : OBJECT_MATERIAL F) (materialTag : String) :
    Option (Res F Unit) :=
  if st.m_objectMaterials.length > 0 then
    match FindMaterial st materialTag uninit with
    | none => none
    | some r =>
      if r.ret.1 = true then
        if r.st.m_pShaderManager then
          some { ret := (), st := r.st,
                 out := r.out ++
                   [Call.setVec3Value "material.ambientColor" r.ret.2.ambientColor,
                    Call.setFloatValue "material.ambientStrength" r.ret.2.ambientStrength,
                    Call.setVec3Value "material.diffuseColor" r.ret.2.diffuseColor,
                    Call.setVec3Value "material.specularColor" r.ret.2.specularColor,
                    Call.setFloatValue "material.shininess" r.ret.2.shininess] }
        else none
      else some { ret := (), st := r.st, out := r.out }
  else
    some { ret := (), st := st, out := [] }

/-! ## The render routine -/

/-- A statement of the body of `RenderScene`: a call of one of the state-setting methods with
its arguments, or a draw request to the mesh utility. -/
inductive Stmt (F : Type) where
  | SetTransformations (scaleXYZ : glm.vec3 F) (XrotationDegrees YrotationDegrees
      ZrotationDegrees : F) (positionXYZ : glm.vec3 F)
  | SetShaderColor (redColorValue greenColorValue blueColorValue alphaValue : F)
  | SetShaderTexture (textureTag : String)
  | SetTextureUVScale (u v : F)
  | SetShaderMaterial (materialTag : String)
  | Draw (mesh : MeshDraw)

/-- The statements of `RenderScene`, in source order. -/
def RenderScene.body [Field F] : List (Stmt F) :=
  -- Ground Plane
  [ Stmt.SetTransformations ⟨10.0, 10.0, 5.0⟩ 0.0 0.0 0.0 ⟨0.0, 0.0, 0.0⟩,
    Stmt.SetShaderTexture "oak",
    Stmt.SetTextureUVScale 1.0 1.0,
    Stmt.SetShaderMaterial "wood",
    Stmt.Draw MeshDraw.DrawPlaneMesh,
  -- Coffee Mug Outer Body (without top)
    Stmt.SetTransformations ⟨0.8, 1.2, 0.8⟩ 0.0 0.0 0.0 ⟨-4.0, -0.03, -0.5⟩,
    Stmt.SetShaderTexture "mug",
    Stmt.SetTextureUVScale 1.0 1.0,
    Stmt.SetShaderMaterial "clay",
    Stmt.Draw (MeshDraw.DrawCylinderMesh [false, true, true]),
  -- Coffee Mug Inner Surface
    Stmt.SetTransformations ⟨0.75, 1.15, 0.75⟩ 0.0 0.0 0.0 ⟨-4.0, -0.04, -0.5⟩,
    Stmt.SetShaderTexture "coffee",
    Stmt.SetTextureUVScale 1.0 1.0,
    Stmt.SetShaderMaterial "glass",
    Stmt.Draw (MeshDraw.DrawCylinderMesh [true, false, true]),
  -- Coffee Mug Handle
    Stmt.SetTransformations ⟨0.4, 0.4, 0.4⟩ 0.0 0.0 0.0 ⟨-3.2, 0.6, -0.5⟩,
    Stmt.SetShaderTexture "mug",
    Stmt.SetTextureUVScale 1.0 1.0,
    Stmt.SetShaderMaterial "clay",
    Stmt.Draw MeshDraw.DrawTorusMesh,
  -- Keyboard Base
    Stmt.SetTransformations ⟨4.0, 0.2, 2.0⟩ 0.0 0.0 0.0 ⟨0.0, 0.0, 2.0⟩,
    Stmt.SetShaderTexture "stainless",
    Stmt.SetTextureUVScale 1.0 1.0,
    Stmt.SetShaderMaterial "metal",
    Stmt.Draw MeshDraw.DrawBoxMesh ]
  -- Keyboard Keys: for (i = 0; i < 5; i++) for (j = 0; j < 12; j++)
  ++ ((List.range 5).flatMap fun i => (List.range 12).flatMap fun j =>
    [ Stmt.SetTransformations ⟨0.25, 0.25, 0.25⟩ 0.0 1.5 0.0
        ⟨-1.65 + (j : F) * 0.3, 0.05, 1.5 + (i : F) * 0.3⟩,
      Stmt.SetShaderTexture "blktx",
      Stmt.SetTextureUVScale 1.0 1.0,
      Stmt.SetShaderMaterial "lightplastic",
      Stmt.Draw MeshDraw.DrawBoxMesh ])
  ++
  -- Mouse Body
  [ Stmt.SetTransformations ⟨0.5, 0.2, 0.8⟩ 0.0 15.0 0.0 ⟨4.0, 0.2, 2.5⟩,
    Stmt.SetShaderTexture "blktx",
    Stmt.SetTextureUVScale 1.0 1.0,
    Stmt.SetShaderMaterial "lightplastic",
    Stmt.Draw MeshDraw.DrawSphereMesh,
  -- Mouse Wheel
    Stmt.SetTransformations ⟨0.1, 0.1, 0.15⟩ 0.0 15.0 90.0 ⟨3.9, 0.31, 2.0⟩,
    Stmt.SetShaderTexture "rubber",
    Stmt.SetTextureUVScale 1.0 1.0,
    Stmt.SetShaderMaterial "lightplastic",
    Stmt.Draw (MeshDraw.DrawCylinderMesh []),
  -- Wall
    Stmt.SetTransformations ⟨40.0, 30.0, 0.2⟩ 0.0 0.0 0.0 ⟨0.0, 2.5, -6.0⟩,
    Stmt.SetShaderColor 0.8 0.8 0.8 1.0,
    Stmt.SetShaderTexture "drywall",
    Stmt.SetTextureUVScale 1.0 1.0,
    Stmt.SetShaderMaterial "cement",
    Stmt.Draw MeshDraw.DrawBoxMesh,
  -- Side Wall
    Stmt.SetTransformations ⟨40.0, 30.0, 0.2⟩ 0.0 90.0 0.0 ⟨20.0, 2.5, 10.0⟩,
    Stmt.SetShaderColor 0.8 0.8 0.8 1.0,
    Stmt.SetShaderTexture "drywall",
    Stmt.SetTextureUVScale 1.0 1.0,
    Stmt.SetShaderMaterial "cement",
    Stmt.Draw MeshDraw.DrawBoxMesh,
  -- Monitor Body
    Stmt.SetTransformations ⟨9.0, 4.5, 0.3⟩ 0.0 0.0 0.0 ⟨0.0, 5.0, -3.5⟩,
    Stmt.SetShaderTexture "blktx",
    Stmt.SetTextureUVScale 1.0 1.0,
    Stmt.SetShaderMaterial "plastic",
    Stmt.Draw MeshDraw.DrawBoxMesh,
  -- Monitor Screen
    Stmt.SetTransformations ⟨8.8, 4.3, 0.3⟩ 0.0 0.0 0.0 ⟨0.0, 5.0, -3.48⟩,
    Stmt.SetShaderTexture "Kali",
    Stmt.SetTextureUVScale 1.0 1.0,
    Stmt.SetShaderMaterial "glass",
    Stmt.Draw MeshDraw.DrawBoxMesh,
  -- Monitor Stand (Pole)
    Stmt.SetTransformations ⟨0.3, 4.0, 0.3⟩ 0.0 0.0 0.0 ⟨0.0, 0.2, -3.7⟩,
    Stmt.SetShaderTexture "stainless",
    Stmt.SetTextureUVScale 1.0 1.0,
    Stmt.SetShaderMaterial "metal",
    Stmt.Draw (MeshDraw.DrawCylinderMesh []),
  -- Monitor Stand (Base)
    Stmt.SetTransformations ⟨4.0, 0.3, 2.0⟩ 0.0 0.0 0.0 ⟨0.0, 0.2, -3.5⟩,
    Stmt.SetShaderTexture "stainless",
    Stmt.SetTextureUVScale 1.0 1.0,
    Stmt.SetShaderMaterial "metal",
    Stmt.Draw MeshDraw.DrawBoxMesh ]

/-- Execution of one statement of `RenderScene`: the method of that name, or the draw request
handed to the mesh utility. -/
def exec [Field F] (T : glm.Trig F) (uninit : OBJECT_MATERIAL F) (st : SceneManager F) :
    Stmt F → Option (Res F Unit)
  | Stmt.SetTransformations s x y z p => SetTransformations T st s x y z p
  | Stmt.SetShaderColor r g b a => SetShaderColor st r g b a
  | Stmt.SetShaderTexture tag => SetShaderTexture st tag
  | Stmt.SetTextureUVScale u v => SetTextureUVScale st u v
  | Stmt.SetShaderMaterial tag => SetShaderMaterial st uninit tag
  | Stmt.Draw mesh => some { ret := (), st := st, out := [Call.draw mesh] }

/-- Sequential execution: each statement runs in the state its predecessor left; the collaborator
calls are concatenated in order. -/
def run [Field F] (T : glm.Trig F) (uninit : OBJECT_MATERIAL F) :
    SceneManager F → List (Stmt F) → Option (Res F Unit)
  | st, [] => some { ret := (), st := st, out := [] }
  | st, s :: rest =>
    match exec T uninit st s with
    | none => none
    | some r =>
      match run T uninit r.st rest with
      | none => none
      | some r2 => some { ret := (), st := r2.st, out := r.out ++ r2.out }

/-- The method `SceneManager::RenderScene`. -/
def RenderScene [Field F] (T : glm.Trig F) (uninit : OBJECT_MATERIAL F) (st : SceneManager F) :
    Option (Res F Unit) :=
  run T uninit st RenderScene.body

end SceneManager

/-! ## Vocabulary of the statements -/

namespace SceneManager

variable {F : Type}

/-- Index `j` is the first loaded entry that carries `tag`, and `e` is that entry. -/
def FirstAt (st : SceneManager F) (tag : String) (j : Nat) (e : TEXTURE_INFO) : Prop :=
  j < st.m_loadedTextures ∧ st.m_textureIDs[j]? = some e ∧ e.tag = tag ∧
    ∀ j2, j2 < j → (st.m_textureIDs[j2]?).map TEXTURE_INFO.tag ≠ some tag

/-- The arguments of one `CreateGLTexture` call together with what the outside world answers:
the decode result, the generated texture name, the file name and the tag. -/
structure CreateCall where
  image : Option Image
  textureID : GLuint
  filename : String
  tag : String

/-- A series of `CreateGLTexture` calls, each made in the state its predecessor left. The result
is the list of returned booleans and the final state. -/
def createSeries : SceneManager F → List CreateCall → Option (List Bool × SceneManager F)
  | st, [] => some ([], st)
  | st, c :: rest =>
    match CreateGLTexture st c.image c.textureID c.filename c.tag with
    | none => none
    | some r =>
      match createSeries r.st rest with
      | none => none
      | some (rets, st2) => some (r.ret :: rets, st2)

/-- A registry of capacity 16 with two loaded textures and two materials, used to evaluate the
definitions on concrete inputs. -/
def sampleScene : SceneManager ℚ :=
  { m_pShaderManager := true
    m_textureIDs := [⟨"coffee", 1⟩, ⟨"stainless", 2⟩] ++ List.replicate 14 ⟨"", 0⟩
    m_loadedTextures := 2
    m_objectMaterials :=
      [ { ambientColor := ⟨0.1, 0.1, 0.1⟩, ambientStrength := 0.4, diffuseColor := ⟨0.1, 0.1, 0.1⟩,
          specularColor := ⟨0.6, 0.5, 0.4⟩, shininess := 22.0, tag := "metal" },
        { ambientColor := ⟨0.2, 0.2, 0.2⟩, ambientStrength := 0.2, diffuseColor := ⟨0.5, 0.5, 0.5⟩,
          specularColor := ⟨0.4, 0.4, 0.4⟩, shininess := 0.5, tag := "cement" } ] }

/-- A material value standing for the indeterminate content of an uninitialised local. -/
def sampleUninit : OBJECT_MATERIAL ℚ :=
  { ambientColor := ⟨7, 7, 7⟩, ambientStrength := 7, diffuseColor := ⟨7, 7, 7⟩,
    specularColor := ⟨7, 7, 7⟩, shininess := 7, tag := "" }

end SceneManager

namespace SceneManager

/-- The sample scene with all 16 slots of the texture array loaded. -/
def fullScene : SceneManager ℚ :=
  { sampleScene with
    m_textureIDs := (List.range 16).map fun i => ⟨"texture" ++ toString i, i + 1⟩
    m_loadedTextures := 16 }

end SceneManager

/-! ## Vocabulary of the statements about the render routine -/

namespace SceneManager

variable {F : Type}

/-- The kind of a statement of `RenderScene`: which method is called, or a draw. -/
inductive StmtKind where
  | transformations
  | shaderColor
  | shaderTexture
  | textureUVScale
  | shaderMaterial
  | draw
  deriving DecidableEq, Repr

/-- The kind of a statement. -/
def Stmt.kind : Stmt F → StmtKind
  | Stmt.SetTransformations _ _ _ _ _ => StmtKind.transformations
  | Stmt.SetShaderColor _ _ _ _ => StmtKind.shaderColor
  | Stmt.SetShaderTexture _ => StmtKind.shaderTexture
  | Stmt.SetTextureUVScale _ _ => StmtKind.textureUVScale
  | Stmt.SetShaderMaterial _ => StmtKind.shaderMaterial
  | Stmt.Draw _ => StmtKind.draw

/-- Cuts a sequence of statement kinds at the draws: one segment per draw, holding the kinds of
the statements that precede it since the previous draw (or since the start), in order.
`pending` collects the current segment. -/
def drawSegments : List StmtKind → List StmtKind → List (List StmtKind)
  | _, [] => []
  | pending, StmtKind.draw :: rest => pending :: drawSegments [] rest
  | pending, k :: rest => drawSegments (pending ++ [k]) rest

/-- The value `FindTextureSlot` returns for a tag (`-1` stands in where the lookup would leave
the array). -/
def slotOf (st : SceneManager F) (tag : String) : Int :=
  (FindTextureSlot.loop st.m_textureIDs tag st.m_loadedTextures 0).getD (-1)

/-- The material `FindMaterial` leaves in a reference argument that held `uninit`. -/
def materialOf (st : SceneManager F) (uninit : OBJECT_MATERIAL F) (tag : String) :
    OBJECT_MATERIAL F :=
  (FindMaterial.loop st.m_objectMaterials tag st.m_objectMaterials.length 0 uninit).getD uninit

/-- The collaborator calls one statement of `RenderScene` makes in a well-formed state with a
shader manager. -/
def emitted [Field F] (T : glm.Trig F) (uninit : OBJECT_MATERIAL F) (st : SceneManager F) :
    Stmt F → List (Call F)
  | Stmt.SetTransformations s x y z p =>
    [Call.setMat4Value "model" (glm.translate p * glm.rotate T (glm.radians T x) ⟨1, 0, 0⟩
      * glm.rotate T (glm.radians T y) ⟨0, 1, 0⟩ * glm.rotate T (glm.radians T z) ⟨0, 0, 1⟩
      * glm.scale s)]
  | Stmt.SetShaderColor r g b a =>
    [Call.setIntValue "bUseTexture" 0, Call.setVec4Value "objectColor" ⟨r, g, b, a⟩]
  | Stmt.SetShaderTexture tag =>
    [Call.setIntValue "bUseTexture" 1, Call.setSampler2DValue "objectTexture" (st.slotOf tag)]
  | Stmt.SetTextureUVScale u v => [Call.setVec2Value "UVscale" ⟨u, v⟩]
  | Stmt.SetShaderMaterial tag =>
    if st.m_objectMaterials.length > 0 then
      [Call.setVec3Value "material.ambientColor" (st.materialOf uninit tag).ambientColor,
       Call.setFloatValue "material.ambientStrength" (st.materialOf uninit tag).ambientStrength,
       Call.setVec3Value "material.diffuseColor" (st.materialOf uninit tag).diffuseColor,
       Call.setVec3Value "material.specularColor" (st.materialOf uninit tag).specularColor,
       Call.setFloatValue "material.shininess" (st.materialOf uninit tag).shininess]
    else []
  | Stmt.Draw mesh => [Call.draw mesh]

end SceneManager

namespace SceneManager

variable {F : Type}

/-- The draws of a trace of collaborator calls, each paired with the `"model"` matrix in force
when it is issued (`current` is the matrix in force at the start, if any). -/
def drawsWithModel : Option (glm.mat4 F) → List (Call F) → List (MeshDraw × Option (glm.mat4 F))
  | _, [] => []
  | current, Call.setMat4Value name value :: rest =>
    if name = "model" then drawsWithModel (some value) rest else drawsWithModel current rest
  | current, Call.draw mesh :: rest => (mesh, current) :: drawsWithModel current rest
  | current, _ :: rest => drawsWithModel current rest

/-- The draws a sequence of statements asks for, each paired with the matrix composed from the
arguments of the latest `SetTransformations` statement; no registry is consulted. -/
def scriptDraws [Field F] (T : glm.Trig F) :
    Option (glm.mat4 F) → List (Stmt F) → List (MeshDraw × Option (glm.mat4 F))
  | _, [] => []
  | _, Stmt.SetTransformations s x y z p :: rest =>
    scriptDraws T (some (glm.translate p * glm.rotate T (glm.radians T x) ⟨1, 0, 0⟩
      * glm.rotate T (glm.radians T y) ⟨0, 1, 0⟩ * glm.rotate T (glm.radians T z) ⟨0, 0, 1⟩
      * glm.scale s)) rest
  | current, Stmt.Draw mesh :: rest => (mesh, current) :: scriptDraws T current rest
  | current, _ :: rest => scriptDraws T current rest

/-- The mesh a statement draws, if it is a draw. -/
def Stmt.mesh? : Stmt F → Option MeshDraw
  | Stmt.Draw mesh => some mesh
  | _ => none

/-- The sample scene after a setup in which every texture load failed and no material was
defined: both registries empty. -/
def emptyScene : SceneManager ℚ :=
  { sampleScene with
    m_textureIDs := List.replicate 16 ⟨"", 0⟩
    m_loadedTextures := 0
    m_objectMaterials := [] }

end SceneManager

/-! ## Vocabulary of the transform statement -/

namespace glm

variable {F : Type} [Field F]

/-- Rotation about the X axis by an angle given in degrees, as a matrix acting on column
vectors. -/
def rotationX (T : Trig F) (degrees : F) : mat4 F :=
  !![1, 0, 0, 0;
     0, T.cos (radians T degrees), -T.sin (radians T degrees), 0;
     0, T.sin (radians T degrees), T.cos (radians T degrees), 0;
     0, 0, 0, 1]

/-- Rotation about the Y axis by an angle given in degrees. -/
def rotationY (T : Trig F) (degrees : F) : mat4 F :=
  !![T.cos (radians T degrees), 0, T.sin (radians T degrees), 0;
     0, 1, 0, 0;
     -T.sin (radians T degrees), 0, T.cos (radians T degrees), 0;
     0, 0, 0, 1]

/-- Rotation about the Z axis by an angle given in degrees. -/
def rotationZ (T : Trig F) (degrees : F) : mat4 F :=
  !![T.cos (radians T degrees), -T.sin (radians T degrees), 0, 0;
     T.sin (radians T degrees), T.cos (radians T degrees), 0, 0;
     0, 0, 1, 0;
     0, 0, 0, 1]

/-- A computable pair of trigonometric functions over the rationals (Taylor polynomials), used
to evaluate the definitions on concrete inputs. -/
def sampleTrig : Trig ℚ :=
  { cos := fun x => 1 - x ^ 2 / 2 + x ^ 4 / 24
    sin := fun x => x - x ^ 3 / 6 + x ^ 5 / 120
    pi := 355 / 113 }

end glm

/-! ## Scene setup -/

namespace SceneManager

variable {F : Type}

/-- File name and tag of the eight `CreateGLTexture` calls of `LoadSceneTextures`, in source
order. -/
def LoadSceneTextures.files : List (String × String) :=
  [ ("../../7-1_FinalProjectMilestones/Utilities/textures/coffee.jpg", "coffee"),
    ("../../7-1_FinalProjectMilestones/Utilities/textures/stainless.jpg", "stainless"),
    ("../../7-1_FinalProjectMilestones/Utilities/textures/Light-blond-oak.jpg", "oak"),
    ("../../7-1_FinalProjectMilestones/Utilities/textures/tissue.jpg", "mug"),
    ("../../7-1_FinalProjectMilestones/Utilities/textures/black-texture.jpg", "blktx"),
    ("../../7-1_FinalProjectMilestones/Utilities/textures/rubber.jpg", "rubber"),
    ("../../7-1_FinalProjectMilestones/Utilities/textures/drywall.jpg", "drywall"),
    ("../../7-1_FinalProjectMilestones/Utilities/textures/Kali-Linux_13.jpg", "Kali") ]

/-- The statements `bReturn = CreateGLTexture(file, tag);` one after the other, each in the state
its predecessor left; the returned boolean is overwritten and never read. `decode` is what
`stbi_load` returns for a file name, `generated k` the name `glGenTextures` writes in the call
number `k` of the routine. -/
def LoadSceneTextures.loads (decode : String → Option Image) (generated : Nat → GLuint) :
    SceneManager F → Nat → List (String × String) → Option (Res F Unit)
  | st, _, [] => some { ret := (), st := st, out := [] }
  | st, k, (filename, tag) :: rest =>
    match st.CreateGLTexture (decode filename) (generated k) filename tag with
    | none => none
    | some r =>
      match LoadSceneTextures.loads decode generated r.st (k + 1) rest with
      | none => none
      | some r2 => some { ret := (), st := r2.st, out := r.out ++ r2.out }

/-- The method `SceneManager::LoadSceneTextures`: the eight loads, then `BindGLTextures()`. -/
def LoadSceneTextures (st : SceneManager F) (decode : String → Option Image)
    (generated : Nat → GLuint) : Option (Res F Unit) :=
  match LoadSceneTextures.loads decode generated st 0 LoadSceneTextures.files with
  | none => none
  | some r =>
    match BindGLTextures r.st with
    | none => none
    | some r2 => some { ret := (), st := r2.st, out := r.out ++ r2.out }

/-- The eight materials pushed by `DefineObjectMaterials`, in source order. -/
def DefineObjectMaterials.materials [Field F] : List (OBJECT_MATERIAL F) :=
  [ { ambientColor := ⟨0.1, 0.1, 0.1⟩, ambientStrength := 0.4, diffuseColor := ⟨0.1, 0.1, 0.1⟩,
      specularColor := ⟨0.6, 0.5, 0.4⟩, shininess := 22.0, tag := "metal" },
    { ambientColor := ⟨0.2, 0.2, 0.2⟩, ambientStrength := 0.2, diffuseColor := ⟨0.5, 0.5, 0.5⟩,
      specularColor := ⟨0.4, 0.4, 0.4⟩, shininess := 0.5, tag := "cement" },
    { ambientColor := ⟨0.4, 0.3, 0.1⟩, ambientStrength := 0.2, diffuseColor := ⟨0.3, 0.2, 0.1⟩,
      specularColor := ⟨0.1, 0.1, 0.1⟩, shininess := 0.3, tag := "wood" },
    { ambientColor := ⟨0.2, 0.3, 0.4⟩, ambientStrength := 0.3, diffuseColor := ⟨0.3, 0.2, 0.1⟩,
      specularColor := ⟨0.4, 0.5, 0.6⟩, shininess := 25.0, tag := "tile" },
    { ambientColor := ⟨0.4, 0.4, 0.4⟩, ambientStrength := 0.3, diffuseColor := ⟨0.3, 0.3, 0.3⟩,
      specularColor := ⟨0.6, 0.6, 0.6⟩, shininess := 85.0, tag := "glass" },
    { ambientColor := ⟨0.2, 0.2, 0.3⟩, ambientStrength := 0.3, diffuseColor := ⟨0.4, 0.4, 0.5⟩,
      specularColor := ⟨0.2, 0.2, 0.4⟩, shininess := 0.5, tag := "clay" },
    { ambientColor := ⟨0.3, 0.3, 0.3⟩, ambientStrength := 0.5, diffuseColor := ⟨0.6, 0.6, 0.6⟩,
      specularColor := ⟨0.8, 0.8, 0.8⟩, shininess := 32.0, tag := "plastic" },
    { ambientColor := ⟨0.3, 0.3, 0.3⟩, ambientStrength := 0.5, diffuseColor := ⟨0.6, 0.6, 0.6⟩,
      specularColor := ⟨0.8, 0.8, 0.8⟩, shininess := 22.0, tag := "lightplastic" } ]

/-- The method `SceneManager::DefineObjectMaterials`: eight `push_back` calls on
`m_objectMaterials`. -/
def DefineObjectMaterials [Field F] (st : SceneManager F) : Option (Res F Unit) :=
  some { ret := (),
         st := { st with
           m_objectMaterials := st.m_objectMaterials ++ DefineObjectMaterials.materials },
         out := [] }

end SceneManager

/-! ## Vocabulary of the statements about tags, texture units and the texture flag -/

/-- The part of the OpenGL state the texture bindings live in: the active texture unit and, per
unit, the texture name bound to `GL_TEXTURE_2D`. -/
structure GLBindings where
  active : Nat
  bound : Nat → GLuint

namespace SceneManager

variable {F : Type}

/-- Effect of one collaborator call on the texture bindings: `glActiveTexture` selects the unit,
`glBindTexture(GL_TEXTURE_2D, t)` binds `t` on the selected unit, every other call leaves the
bindings alone. -/
def glStep (g : GLBindings) : Call F → GLBindings
  | Call.glActiveTexture textureUnit => { g with active := textureUnit }
  | Call.glBindTexture target texture =>
    if target = "GL_TEXTURE_2D" then
      { g with bound := fun u => if u = g.active then texture else g.bound u }
    else g
  | _ => g

/-- Effect of a trace of collaborator calls on the texture bindings. -/
def glRun (g : GLBindings) (calls : List (Call F)) : GLBindings :=
  calls.foldl glStep g

/-- The tag a statement passes to `SetShaderTexture`, if it is such a call. -/
def Stmt.textureTag? : Stmt F → Option String
  | Stmt.SetShaderTexture tag => some tag
  | _ => none

/-- The tag a statement passes to `SetShaderMaterial`, if it is such a call. -/
def Stmt.materialTag? : Stmt F → Option String
  | Stmt.SetShaderMaterial tag => some tag
  | _ => none

/-- The draws of a trace of collaborator calls, each paired with the value last written to the
uniform `"bUseTexture"` (`current` is the value in force at the start, if any). -/
def drawsWithFlag : Option Int → List (Call F) → List (MeshDraw × Option Int)
  | _, [] => []
  | current, Call.setIntValue name value :: rest =>
    if name = "bUseTexture" then drawsWithFlag (some value) rest
    else drawsWithFlag current rest
  | current, Call.draw mesh :: rest => (mesh, current) :: drawsWithFlag current rest
  | current, _ :: rest => drawsWithFlag current rest

/-- The value of the texture flag at each draw of a sequence of statement kinds:
`SetShaderColor` writes `0`, `SetShaderTexture` writes `1`, the other methods leave it. -/
def flagsAtDraws : Option Int → List StmtKind → List (Option Int)
  | _, [] => []
  | _, StmtKind.shaderColor :: rest => flagsAtDraws (some 0) rest
  | _, StmtKind.shaderTexture :: rest => flagsAtDraws (some 1) rest
  | current, StmtKind.draw :: rest => current :: flagsAtDraws current rest
  | current, _ :: rest => flagsAtDraws current rest

/-- The number of writes of a given value to the uniform `"bUseTexture"` in a trace. -/
def flagWrites (value : Int) : List (Call F) → Nat
  | [] => 0
  | Call.setIntValue name v :: rest =>
    (if name = "bUseTexture" ∧ v = value then 1 else 0) + flagWrites value rest
  | _ :: rest => flagWrites value rest

/-- A decoder under which every file of the scene is a 512 x 512 RGB image. -/
def sampleDecode : String → Option Image := fun _ => some ⟨512, 512, 3⟩

end SceneManager

/-! ## Further sample states -/

namespace SceneManager

/-- The sample scene with a third loaded texture, `"oak"`, whose name is the largest `GLuint`. -/
def largeNameScene : SceneManager ℚ :=
  { sampleScene with
    m_textureIDs := [⟨"coffee", 1⟩, ⟨"stainless", 2⟩, ⟨"oak", 4294967295⟩]
      ++ List.replicate 13 ⟨"", 0⟩
    m_loadedTextures := 3 }

end SceneManager

/-- Texture bindings with unit 0 active and no texture bound on any unit. -/
def noBindings : GLBindings :=
  { active := 0, bound := fun _ => 0 }

/-! ## Lemmas on the lookup loops -/

namespace SceneManager

variable {F : Type}

/-- Both texture lookups, started at `index` with `remaining` iterations inside the array:
either no entry in the range carries the tag and both return `-1`, or the first entry in the
range that carries it decides both results. -/
theorem textureLoops_spec (arr : List TEXTURE_INFO) (tag : String) :
    ∀ (k i : Nat), i + k ≤ arr.length →
      ((∀ j, i ≤ j → j < i + k → (arr[j]?).map TEXTURE_INFO.tag ≠ some tag) ∧
        FindTextureSlot.loop arr tag k i = some (-1) ∧
        FindTextureID.loop arr tag k i = some (-1)) ∨
      (∃ j e, i ≤ j ∧ j < i + k ∧ arr[j]? = some e ∧ e.tag = tag ∧
        (∀ j2, i ≤ j2 → j2 < j → (arr[j2]?).map TEXTURE_INFO.tag ≠ some tag) ∧
        FindTextureSlot.loop arr tag k i = some (j : Int) ∧
        FindTextureID.loop arr tag k i = some (GLuintToInt e.ID)) := by
  intro k
  induction k with
  | zero =>
    intro i _
    left
    refine ⟨?_, rfl, rfl⟩
    intro j h1 h2
    omega
  | succ k ih =>
    intro i hi
    have hlt : i < arr.length := by omega
    have hget : arr[i]? = some arr[i] := List.getElem?_eq_getElem hlt
    by_cases htag : (arr[i]).tag = tag
    · right
      refine ⟨i, arr[i], le_refl i, by omega, hget, htag, ?_, ?_, ?_⟩
      · intro j2 h1 h2
        omega
      · simp [FindTextureSlot.loop, hget, htag]
      · simp [FindTextureID.loop, hget, htag]
    · have hslot : FindTextureSlot.loop arr tag (k + 1) i
          = FindTextureSlot.loop arr tag k (i + 1) := by
        simp [FindTextureSlot.loop, hget, htag]
      have hid : FindTextureID.loop arr tag (k + 1) i
          = FindTextureID.loop arr tag k (i + 1) := by
        simp [FindTextureID.loop, hget, htag]
      have hhere : (arr[i]?).map TEXTURE_INFO.tag ≠ some tag := by
        simp [hget, htag]
      rcases ih (i + 1) (by omega) with ⟨hno, h1, h2⟩ | ⟨j, e, hj1, hj2, hje, het, hfirst, h1, h2⟩
      · left
        refine ⟨?_, by rw [hslot, h1], by rw [hid, h2]⟩
        intro j hj1 hj2
        by_cases hji : j = i
        · subst hji
          exact hhere
        · exact hno j (by omega) (by omega)
      · right
        refine ⟨j, e, by omega, by omega, hje, het, ?_, by rw [hslot, h1], by rw [hid, h2]⟩
        intro j2 hj21 hj22
        by_cases hji : j2 = i
        · subst hji
          exact hhere
        · exact hfirst j2 (by omega) hj22

/-- A tag is among the loaded tags exactly when some index below the count carries it. -/
theorem mem_loadedTags_iff (st : SceneManager F) (tag : String) :
    tag ∈ st.loadedTags ↔
      ∃ j, j < st.m_loadedTextures ∧ (st.m_textureIDs[j]?).map TEXTURE_INFO.tag = some tag := by
  unfold loadedTags
  rw [List.mem_iff_getElem?]
  constructor
  · rintro ⟨j, hj⟩
    rw [List.getElem?_map, List.getElem?_take] at hj
    by_cases hlt : j < st.m_loadedTextures
    · exact ⟨j, hlt, by simpa [hlt] using hj⟩
    · simp [hlt] at hj
  · rintro ⟨j, hlt, hj⟩
    refine ⟨j, ?_⟩
    rw [List.getElem?_map, List.getElem?_take]
    simpa [hlt] using hj

end SceneManager

namespace SceneManager

variable {F : Type}

/-- With the count inside the array, the first loaded entry carrying a tag decides
`FindTextureID` and `FindTextureSlot`. -/
theorem lookups_of_firstAt (st : SceneManager F) (tag : String) (j : Nat) (e : TEXTURE_INFO)
    (hle : st.m_loadedTextures ≤ st.m_textureIDs.length) (hf : st.FirstAt tag j e) :
    st.FindTextureID tag = some { ret := GLuintToInt e.ID, st := st, out := [] } ∧
    st.FindTextureSlot tag = some { ret := (j : Int), st := st, out := [] } := by
  obtain ⟨hj, hje, het, hfirst⟩ := hf
  have hmatch : (st.m_textureIDs[j]?).map TEXTURE_INFO.tag = some tag := by simp [hje, het]
  rcases textureLoops_spec st.m_textureIDs tag st.m_loadedTextures 0 (by omega) with
    ⟨hno, _, _⟩ | ⟨j1, e1, _, hj1, hje1, het1, hfirst1, h1, h2⟩
  · exact absurd hmatch (hno j (Nat.zero_le j) (by omega))
  · have hmatch1 : (st.m_textureIDs[j1]?).map TEXTURE_INFO.tag = some tag := by simp [hje1, het1]
    have hjj : j1 = j := by
      rcases Nat.lt_trichotomy j1 j with hlt | heq | hgt
      · exact absurd hmatch1 (hfirst j1 hlt)
      · exact heq
      · exact absurd hmatch (hfirst1 j (Nat.zero_le j) hgt)
    subst hjj
    have hee : e1 = e := by
      rw [hje] at hje1
      exact (Option.some.inj hje1).symm
    subst hee
    simp [FindTextureID, FindTextureSlot, h1, h2]

/-- With the count inside the array, a tag carried by no loaded entry makes both lookups
return `-1`. -/
theorem lookups_of_not_mem (st : SceneManager F) (tag : String)
    (hle : st.m_loadedTextures ≤ st.m_textureIDs.length) (h : tag ∉ st.loadedTags) :
    st.FindTextureID tag = some { ret := -1, st := st, out := [] } ∧
    st.FindTextureSlot tag = some { ret := -1, st := st, out := [] } := by
  rcases textureLoops_spec st.m_textureIDs tag st.m_loadedTextures 0 (by omega) with
    ⟨_, h1, h2⟩ | ⟨j1, e1, _, hj1, hje1, het1, _, _, _⟩
  · simp [FindTextureID, FindTextureSlot, h1, h2]
  · exfalso
    apply h
    rw [mem_loadedTags_iff]
    exact ⟨j1, by omega, by simp [hje1, het1]⟩

end SceneManager

/-- C2. Lookup miss returns the sentinel: in a registry whose count lies inside the array, a tag
carried by no loaded entry makes `FindTextureID` and `FindTextureSlot` both return `-1` (leaving
the state as it was and calling no collaborator); in particular both return `-1` for every tag
when no texture is loaded. -/
theorem C2_lookup_miss_returns_sentinel {F : Type} (st : SceneManager F) (tag : String)
    (hwf : st.WF) :
    (tag ∉ st.loadedTags →
      st.FindTextureID tag = some { ret := -1, st := st, out := [] } ∧
      st.FindTextureSlot tag = some { ret := -1, st := st, out := [] }) ∧
    (st.m_loadedTextures = 0 →
      st.FindTextureID tag = some { ret := -1, st := st, out := [] } ∧
      st.FindTextureSlot tag = some { ret := -1, st := st, out := [] }) := by
  refine ⟨fun h => SceneManager.lookups_of_not_mem st tag hwf.1 h, fun h0 => ?_⟩
  apply SceneManager.lookups_of_not_mem st tag hwf.1
  simp [SceneManager.loadedTags, h0]

/-- C2 at a concrete registry: `"oak"` is not loaded in the sample scene, and both lookups
return `-1`. -/
theorem C2_lookup_miss_witness :
    SceneManager.sampleScene.WF ∧ "oak" ∉ SceneManager.sampleScene.loadedTags ∧
      SceneManager.sampleScene.FindTextureID "oak"
        = some { ret := -1, st := SceneManager.sampleScene, out := [] } ∧
      SceneManager.sampleScene.FindTextureSlot "oak"
        = some { ret := -1, st := SceneManager.sampleScene, out := [] } :=
  ⟨by decide, by decide,
    (C2_lookup_miss_returns_sentinel SceneManager.sampleScene "oak" (by decide)).1 (by decide)⟩

namespace SceneManager

variable {F : Type}

/-- Conversion of a texture name to `int` keeps every name below `2 ^ 31`. -/
theorem GLuintToInt_small (h : GLuint) (hlt : h < 2 ^ 31) : GLuintToInt h = (h : Int) := by
  have hlt2 : h < 2 ^ 32 := lt_trans hlt (by norm_num)
  unfold GLuintToInt
  rw [Nat.mod_eq_of_lt hlt2, if_pos hlt]

/-- A defined registration wrote the new entry at the old count and incremented the count. -/
theorem registerTexture_some (st st1 : SceneManager F) (h : GLuint) (tag : String)
    (hreg : st.registerTexture h tag = some st1) :
    st.m_loadedTextures < st.m_textureIDs.length ∧
    st1 = { st with
      m_textureIDs := st.m_textureIDs.set st.m_loadedTextures { tag := tag, ID := h }
      m_loadedTextures := st.m_loadedTextures + 1 } := by
  unfold registerTexture at hreg
  split at hreg
  · rename_i hlt
    exact ⟨hlt, (Option.some.inj hreg).symm⟩
  · exact absurd hreg (by simp)

/-- A defined `CreateGLTexture` call either returned `false` and left the state alone, or
returned `true` and registered the entry. -/
theorem CreateGLTexture_cases (st : SceneManager F) (image : Option Image) (h : GLuint)
    (filename tag : String) (r : Res F Bool)
    (hc : st.CreateGLTexture image h filename tag = some r) :
    (r.ret = false ∧ r.st = st) ∨ (r.ret = true ∧ st.registerTexture h tag = some r.st) := by
  unfold CreateGLTexture at hc
  cases image with
  | none =>
    left
    simp only [Option.some.injEq] at hc
    subst hc
    exact ⟨rfl, rfl⟩
  | some img =>
    simp only at hc
    split at hc
    · right
      cases hreg : st.registerTexture h tag with
      | none => simp [hreg] at hc
      | some st1 =>
        simp only [hreg, Option.map_some', Option.some.injEq] at hc
        subst hc
        exact ⟨rfl, rfl⟩
    · split at hc
      · right
        cases hreg : st.registerTexture h tag with
        | none => simp [hreg] at hc
        | some st1 =>
          simp only [hreg, Option.map_some', Option.some.injEq] at hc
          subst hc
          exact ⟨rfl, rfl⟩
      · left
        simp only [Option.some.injEq] at hc
        subst hc
        exact ⟨rfl, rfl⟩

/-- A registration keeps the count inside the array and the capacity unchanged. -/
theorem registerTexture_WF (st st1 : SceneManager F) (h : GLuint) (tag : String)
    (hwf : st.WF) (hreg : st.registerTexture h tag = some st1) : st1.WF := by
  obtain ⟨hlt, rfl⟩ := registerTexture_some st st1 h tag hreg
  unfold WF at *
  simp only [List.length_set]
  omega

/-- A registration keeps the first loaded entry of every tag that already had one. -/
theorem registerTexture_firstAt (st st1 : SceneManager F) (h : GLuint) (tag2 tag : String)
    (j : Nat) (e : TEXTURE_INFO)
    (hreg : st.registerTexture h tag2 = some st1) (hf : st.FirstAt tag j e) :
    st1.FirstAt tag j e := by
  obtain ⟨hlt, rfl⟩ := registerTexture_some st st1 h tag2 hreg
  obtain ⟨hj, hje, het, hfirst⟩ := hf
  refine ⟨by simp only; omega, ?_, het, ?_⟩
  · simp only
    rw [List.getElem?_set_ne (by omega)]
    exact hje
  · intro j2 hj2
    simp only
    rw [List.getElem?_set_ne (by omega)]
    exact hfirst j2 hj2

/-- Registering a tag that no loaded entry carries makes the new entry its first match. -/
theorem registerTexture_firstAt_new (st st1 : SceneManager F) (h : GLuint) (tag : String)
    (hnew : tag ∉ st.loadedTags) (hreg : st.registerTexture h tag = some st1) :
    st1.FirstAt tag st.m_loadedTextures { tag := tag, ID := h } := by
  obtain ⟨hlt, rfl⟩ := registerTexture_some st st1 h tag hreg
  refine ⟨by simp, ?_, rfl, ?_⟩
  · simp only
    rw [List.getElem?_set_self hlt]
  · intro j2 hj2 hcarry
    simp only at hcarry
    rw [List.getElem?_set_ne (by omega)] at hcarry
    exact hnew ((mem_loadedTags_iff st tag).2 ⟨j2, hj2, hcarry⟩)

/-- A defined `CreateGLTexture` call keeps well-formedness and first matches. -/
theorem CreateGLTexture_keeps (st : SceneManager F) (image : Option Image) (h : GLuint)
    (filename tag2 tag : String) (r : Res F Bool) (j : Nat) (e : TEXTURE_INFO)
    (hc : st.CreateGLTexture image h filename tag2 = some r)
    (hwf : st.WF) (hf : st.FirstAt tag j e) : r.st.WF ∧ r.st.FirstAt tag j e := by
  rcases CreateGLTexture_cases st image h filename tag2 r hc with ⟨_, hst⟩ | ⟨_, hreg⟩
  · rw [hst]
    exact ⟨hwf, hf⟩
  · exact ⟨registerTexture_WF st r.st h tag2 hwf hreg,
      registerTexture_firstAt st r.st h tag2 tag j e hreg hf⟩

/-- A defined series of `CreateGLTexture` calls keeps well-formedness and first matches. -/
theorem createSeries_keeps (tag : String) (j : Nat) (e : TEXTURE_INFO) :
    ∀ (later : List CreateCall) (st st2 : SceneManager F) (rets : List Bool),
      createSeries st later = some (rets, st2) → st.WF → st.FirstAt tag j e →
      st2.WF ∧ st2.FirstAt tag j e := by
  intro later
  induction later with
  | nil =>
    intro st st2 rets hs hwf hf
    simp only [createSeries, Option.some.injEq, Prod.mk.injEq] at hs
    rw [← hs.2]
    exact ⟨hwf, hf⟩
  | cons c rest ih =>
    intro st st2 rets hs hwf hf
    unfold createSeries at hs
    cases hc : st.CreateGLTexture c.image c.textureID c.filename c.tag with
    | none => simp [hc] at hs
    | some r =>
      simp only [hc] at hs
      cases hrest : createSeries r.st rest with
      | none => simp [hrest] at hs
      | some p =>
        obtain ⟨rets1, st3⟩ := p
        simp only [hrest, Option.some.injEq, Prod.mk.injEq] at hs
        obtain ⟨hwf1, hf1⟩ := CreateGLTexture_keeps st c.image c.textureID c.filename c.tag tag
          r j e hc hwf hf
        rw [← hs.2]
        exact ih r.st st3 rets1 hrest hwf1 hf1

end SceneManager

/-- C1 (as amended). Insert-then-lookup for textures: in a well-formed registry, after a
`CreateGLTexture` call that returns `true` and registers the name `h` under a tag carried by no
loaded entry, `FindTextureID` of that tag returns `h` converted to `int` (which is `h` itself
when `h < 2 ^ 31`), and it still returns that value after any series of further
`CreateGLTexture` calls with other tags that all return `true`. -/
theorem C1_lookup_after_insert {F : Type} (st : SceneManager F) (c : SceneManager.CreateCall)
    (r : Res F Bool) (hwf : st.WF) (hnew : c.tag ∉ st.loadedTags)
    (hcreate : st.CreateGLTexture c.image c.textureID c.filename c.tag = some r)
    (hok : r.ret = true) :
    r.st.FindTextureID c.tag
      = some { ret := GLuintToInt c.textureID, st := r.st, out := [] } ∧
    (c.textureID < 2 ^ 31 → GLuintToInt c.textureID = (c.textureID : Int)) ∧
    ∀ (later : List SceneManager.CreateCall) (rets : List Bool) (st2 : SceneManager F),
      (∀ d ∈ later, d.tag ≠ c.tag) →
      SceneManager.createSeries r.st later = some (rets, st2) →
      (∀ b ∈ rets, b = true) →
      st2.FindTextureID c.tag
        = some { ret := GLuintToInt c.textureID, st := st2, out := [] } := by
  have hreg : st.registerTexture c.textureID c.tag = some r.st := by
    rcases SceneManager.CreateGLTexture_cases st c.image c.textureID c.filename c.tag r hcreate
      with ⟨hfalse, _⟩ | ⟨_, hreg⟩
    · rw [hok] at hfalse
      exact absurd hfalse (by simp)
    · exact hreg
  have hwf1 : r.st.WF := SceneManager.registerTexture_WF st r.st c.textureID c.tag hwf hreg
  have hf1 := SceneManager.registerTexture_firstAt_new st r.st c.textureID c.tag hnew hreg
  refine ⟨(SceneManager.lookups_of_firstAt r.st c.tag _ _ hwf1.1 hf1).1,
    SceneManager.GLuintToInt_small c.textureID, ?_⟩
  intro later rets st2 _ hseries _
  obtain ⟨hwf2, hf2⟩ := SceneManager.createSeries_keeps c.tag _ _ later r.st st2 rets hseries
    hwf1 hf1
  exact (SceneManager.lookups_of_firstAt st2 c.tag _ _ hwf2.1 hf2).1

/-- C1 at a concrete input: registering `"oak"` with name `7` in the sample scene. -/
theorem C1_lookup_after_insert_witness :
    SceneManager.sampleScene.WF ∧ "oak" ∉ SceneManager.sampleScene.loadedTags ∧
    (SceneManager.sampleScene.CreateGLTexture (some ⟨64, 64, 3⟩) 7 "oak.jpg" "oak").map Res.ret
      = some true ∧
    ((SceneManager.sampleScene.CreateGLTexture (some ⟨64, 64, 3⟩) 7 "oak.jpg" "oak").bind
      fun r => (r.st.FindTextureID "oak").map Res.ret) = some 7 := by
  refine ⟨by decide, by decide, by decide, ?_⟩
  have h1 : (SceneManager.sampleScene.CreateGLTexture (some ⟨64, 64, 3⟩) 7 "oak.jpg"
      "oak").map Res.ret = some true := by decide
  cases hc : SceneManager.sampleScene.CreateGLTexture (some ⟨64, 64, 3⟩) 7 "oak.jpg" "oak" with
  | none =>
    rw [hc] at h1
    exact absurd h1 (by simp)
  | some r =>
    rw [hc] at h1
    have hok : r.ret = true := Option.some.inj h1
    have h := (C1_lookup_after_insert SceneManager.sampleScene
      ⟨some ⟨64, 64, 3⟩, 7, "oak.jpg", "oak"⟩ r (by decide) (by decide) hc hok).1
    show Option.map Res.ret (r.st.FindTextureID "oak") = some 7
    rw [h]
    rfl

/-- C1 as stated fails for a texture name that does not fit an `int`: after registering
`"oak"` with the name `4294967295`, `FindTextureID "oak"` returns `-1`, not `4294967295`. -/
theorem C1_counterexample_large_name :
    SceneManager.sampleScene.WF ∧ "oak" ∉ SceneManager.sampleScene.loadedTags ∧
    (SceneManager.sampleScene.CreateGLTexture (some ⟨64, 64, 3⟩) 4294967295 "oak.jpg"
      "oak").map Res.ret = some true ∧
    ((SceneManager.sampleScene.CreateGLTexture (some ⟨64, 64, 3⟩) 4294967295 "oak.jpg"
      "oak").bind fun r => (r.st.FindTextureID "oak").map Res.ret) = some (-1) ∧
    ((-1 : Int) ≠ ((4294967295 : Nat) : Int)) := by
  refine ⟨by decide, by decide, by decide, by decide, by decide⟩

namespace SceneManager

variable {F : Type}

/-- The loop of `FindMaterial` inside the vector: either no entry in the range carries the tag
and `material` is returned untouched, or the first entry in the range that carries it has its
five lighting fields copied into `material`. -/
theorem materialLoop_spec (mats : List (OBJECT_MATERIAL F)) (tag : String)
    (material : OBJECT_MATERIAL F) :
    ∀ (k i : Nat), i + k ≤ mats.length →
      ((∀ j, i ≤ j → j < i + k → (mats[j]?).map OBJECT_MATERIAL.tag ≠ some tag) ∧
        FindMaterial.loop mats tag k i material = some material) ∨
      (∃ j m, i ≤ j ∧ j < i + k ∧ mats[j]? = some m ∧ m.tag = tag ∧
        (∀ j2, i ≤ j2 → j2 < j → (mats[j2]?).map OBJECT_MATERIAL.tag ≠ some tag) ∧
        FindMaterial.loop mats tag k i material = some { material with
          ambientColor := m.ambientColor
          ambientStrength := m.ambientStrength
          diffuseColor := m.diffuseColor
          specularColor := m.specularColor
          shininess := m.shininess }) := by
  intro k
  induction k with
  | zero =>
    intro i _
    left
    refine ⟨?_, rfl⟩
    intro j h1 h2
    omega
  | succ k ih =>
    intro i hi
    have hlt : i < mats.length := by omega
    have hget : mats[i]? = some mats[i] := List.getElem?_eq_getElem hlt
    by_cases htag : (mats[i]).tag = tag
    · right
      refine ⟨i, mats[i], le_refl i, by omega, hget, htag, ?_, ?_⟩
      · intro j2 h1 h2
        omega
      · simp [FindMaterial.loop, hget, htag]
    · have hstep : FindMaterial.loop mats tag (k + 1) i material
          = FindMaterial.loop mats tag k (i + 1) material := by
        simp [FindMaterial.loop, hget, htag]
      have hhere : (mats[i]?).map OBJECT_MATERIAL.tag ≠ some tag := by
        simp [hget, htag]
      rcases ih (i + 1) (by omega) with ⟨hno, h1⟩ | ⟨j, m, hj1, hj2, hjm, hmt, hfirst, h1⟩
      · left
        refine ⟨?_, by rw [hstep, h1]⟩
        intro j hj1 hj2
        by_cases hji : j = i
        · subst hji
          exact hhere
        · exact hno j (by omega) (by omega)
      · right
        refine ⟨j, m, by omega, by omega, hjm, hmt, ?_, by rw [hstep, h1]⟩
        intro j2 hj21 hj22
        by_cases hji : j2 = i
        · subst hji
          exact hhere
        · exact hfirst j2 (by omega) hj22

/-- On a non-empty material vector none of whose entries carries the tag, `FindMaterial` returns
`true` and leaves the reference argument as it was. -/
theorem FindMaterial_miss_nonempty (st : SceneManager F) (tag : String)
    (material : OBJECT_MATERIAL F) (hne : st.m_objectMaterials.length ≠ 0)
    (hmiss : ∀ m ∈ st.m_objectMaterials, m.tag ≠ tag) :
    st.FindMaterial tag material = some { ret := (true, material), st := st, out := [] } := by
  rcases materialLoop_spec st.m_objectMaterials tag material st.m_objectMaterials.length 0
    (by omega) with ⟨_, h1⟩ | ⟨j, m, _, _, hjm, hmt, _, _⟩
  · simp [FindMaterial, hne, h1]
  · exact absurd hmt (hmiss m (List.getElem?_mem hjm))

end SceneManager

/-- C3 (the code at the failing input). The sample scene holds the materials `"metal"` and
`"cement"`; looking up `"wood"`, which neither entry carries, `FindMaterial` returns `true` and
hands back the reference argument unchanged, where the claim requires `false`. On the empty
vector it returns `false`. -/
theorem C3_findMaterial_miss_returns_true :
    "wood" ∉ SceneManager.sampleScene.m_objectMaterials.map OBJECT_MATERIAL.tag ∧
    (SceneManager.sampleScene.FindMaterial "wood" SceneManager.sampleUninit).map
      (fun r => r.ret) = some (true, SceneManager.sampleUninit) ∧
    (({ SceneManager.sampleScene with m_objectMaterials := [] } : SceneManager ℚ).FindMaterial
      "wood" SceneManager.sampleUninit).map (fun r => r.ret)
      = some (false, SceneManager.sampleUninit) := by
  refine ⟨by decide, ?_, rfl⟩
  rw [SceneManager.FindMaterial_miss_nonempty SceneManager.sampleScene "wood"
    SceneManager.sampleUninit (by decide) (by decide)]
  rfl

/-- C4. Material lookup hit: when some entry of the material vector carries the tag,
`FindMaterial` returns `true` and the ambient colour, ambient strength, diffuse colour, specular
colour and shininess of the output material are those of the first entry (lowest index) that
carries the tag. -/
theorem C4_findMaterial_hit {F : Type} (st : SceneManager F) (tag : String)
    (material : OBJECT_MATERIAL F) (hcarried : ∃ m ∈ st.m_objectMaterials, m.tag = tag) :
    ∃ (i : Nat) (m out : OBJECT_MATERIAL F),
      st.m_objectMaterials[i]? = some m ∧ m.tag = tag ∧
      (∀ j, j < i → (st.m_objectMaterials[j]?).map OBJECT_MATERIAL.tag ≠ some tag) ∧
      st.FindMaterial tag material = some { ret := (true, out), st := st, out := [] } ∧
      out.ambientColor = m.ambientColor ∧ out.ambientStrength = m.ambientStrength ∧
      out.diffuseColor = m.diffuseColor ∧ out.specularColor = m.specularColor ∧
      out.shininess = m.shininess := by
  obtain ⟨m0, hm0, ht0⟩ := hcarried
  have hne : st.m_objectMaterials.length ≠ 0 := by
    intro h0
    rw [List.length_eq_zero] at h0
    rw [h0] at hm0
    exact absurd hm0 (List.not_mem_nil m0)
  rcases SceneManager.materialLoop_spec st.m_objectMaterials tag material
    st.m_objectMaterials.length 0 (by omega) with ⟨hno, _⟩ | ⟨j, m, _, _, hjm, hmt, hfirst, h1⟩
  · exfalso
    obtain ⟨i0, hi0, hget0⟩ := List.getElem_of_mem hm0
    apply hno i0 (Nat.zero_le i0) (by omega)
    rw [List.getElem?_eq_getElem hi0, hget0]
    simp [ht0]
  · refine ⟨j, m, { material with
          ambientColor := m.ambientColor
          ambientStrength := m.ambientStrength
          diffuseColor := m.diffuseColor
          specularColor := m.specularColor
          shininess := m.shininess }, hjm, hmt, fun j2 hj2 => hfirst j2 (Nat.zero_le j2) hj2, ?_,
      rfl, rfl, rfl, rfl, rfl⟩
    simp [SceneManager.FindMaterial, hne, h1]

/-- C4 at a concrete input: `"cement"` is the second material of the sample scene. -/
theorem C4_findMaterial_hit_witness :
    (∃ m ∈ SceneManager.sampleScene.m_objectMaterials, m.tag = "cement") ∧
    ∃ (i : Nat) (m out : OBJECT_MATERIAL ℚ),
      SceneManager.sampleScene.m_objectMaterials[i]? = some m ∧ m.tag = "cement" ∧
      (∀ j, j < i →
        (SceneManager.sampleScene.m_objectMaterials[j]?).map OBJECT_MATERIAL.tag
          ≠ some "cement") ∧
      SceneManager.sampleScene.FindMaterial "cement" SceneManager.sampleUninit
        = some { ret := (true, out), st := SceneManager.sampleScene, out := [] } ∧
      out.ambientColor = m.ambientColor ∧ out.ambientStrength = m.ambientStrength ∧
      out.diffuseColor = m.diffuseColor ∧ out.specularColor = m.specularColor ∧
      out.shininess = m.shininess :=
  ⟨by decide, C4_findMaterial_hit SceneManager.sampleScene "cement" SceneManager.sampleUninit
    (by decide)⟩

namespace glm

variable {F : Type} [Field F]

/-- The matrix `glm::rotate(radians(d), (1, 0, 0))` is the rotation about the X axis. -/
theorem rotate_unitX (T : Trig F) (d : F) :
    rotate T (radians T d) ⟨1, 0, 0⟩ = rotationX T d := by
  ext i j
  fin_cases i <;> fin_cases j <;> simp [rotate, rotationX]

/-- The matrix `glm::rotate(radians(d), (0, 1, 0))` is the rotation about the Y axis. -/
theorem rotate_unitY (T : Trig F) (d : F) :
    rotate T (radians T d) ⟨0, 1, 0⟩ = rotationY T d := by
  ext i j
  fin_cases i <;> fin_cases j <;> simp [rotate, rotationY]

/-- The matrix `glm::rotate(radians(d), (0, 0, 1))` is the rotation about the Z axis. -/
theorem rotate_unitZ (T : Trig F) (d : F) :
    rotate T (radians T d) ⟨0, 0, 1⟩ = rotationZ T d := by
  ext i j
  fin_cases i <;> fin_cases j <;> simp [rotate, rotationZ]

end glm

/-- C5. Transform composition: with a non-null shader manager, `SetTransformations` sends exactly
one uniform, a matrix named `"model"`, whose value is
`translate(position) * rotateX * rotateY * rotateZ * scale(scale)` in that order, so that a
vertex is scaled first, then rotated about Z, then about Y, then about X, then translated
(over any field of scalars, the real numbers included). -/
theorem C5_transform_composition {F : Type} [Field F] (T : glm.Trig F) (st : SceneManager F)
    (scaleXYZ : glm.vec3 F) (XrotationDegrees YrotationDegrees ZrotationDegrees : F)
    (positionXYZ : glm.vec3 F) (hsm : st.m_pShaderManager = true) :
    st.SetTransformations T scaleXYZ XrotationDegrees YrotationDegrees ZrotationDegrees
        positionXYZ
      = some { ret := (), st := st, out := [Call.setMat4Value "model"
          (glm.translate positionXYZ * glm.rotationX T XrotationDegrees
            * glm.rotationY T YrotationDegrees * glm.rotationZ T ZrotationDegrees
            * glm.scale scaleXYZ)] } ∧
    ∀ v : Fin 4 → F,
      (glm.translate positionXYZ * glm.rotationX T XrotationDegrees
          * glm.rotationY T YrotationDegrees * glm.rotationZ T ZrotationDegrees
          * glm.scale scaleXYZ).mulVec v
        = (glm.translate positionXYZ).mulVec ((glm.rotationX T XrotationDegrees).mulVec
            ((glm.rotationY T YrotationDegrees).mulVec
              ((glm.rotationZ T ZrotationDegrees).mulVec ((glm.scale scaleXYZ).mulVec v)))) := by
  constructor
  · unfold SceneManager.SetTransformations
    simp only [hsm, if_true, glm.rotate_unitX, glm.rotate_unitY, glm.rotate_unitZ]
    rfl
  · intro v
    simp only [Matrix.mulVec_mulVec, Matrix.mul_assoc]

/-- C5 at a concrete input: the mouse wheel of the scene (scale `(0.1, 0.1, 0.15)`, rotations
`0, 15, 90` degrees, position `(3.9, 0.31, 2.0)`) in the sample scene. -/
theorem C5_transform_composition_witness :
    SceneManager.sampleScene.m_pShaderManager = true ∧
    SceneManager.sampleScene.SetTransformations glm.sampleTrig ⟨0.1, 0.1, 0.15⟩ 0 15 90
        ⟨3.9, 0.31, 2.0⟩
      = some { ret := (), st := SceneManager.sampleScene, out := [Call.setMat4Value "model"
          (glm.translate ⟨3.9, 0.31, 2.0⟩ * glm.rotationX glm.sampleTrig 0
            * glm.rotationY glm.sampleTrig 15 * glm.rotationZ glm.sampleTrig 90
            * glm.scale ⟨0.1, 0.1, 0.15⟩)] } :=
  ⟨rfl, (C5_transform_composition glm.sampleTrig SceneManager.sampleScene ⟨0.1, 0.1, 0.15⟩ 0 15 90
    ⟨3.9, 0.31, 2.0⟩ rfl).1⟩

/-- C6 (as amended). Failed texture setup is reported by a boolean and changes nothing: in a
well-formed registry, `CreateGLTexture` returns `false` and leaves the whole state unchanged
when the image cannot be decoded or the decoded channel count is neither 3 nor 4; in every other
case, provided the old count is below the capacity of the array, it returns `true`, stores the
entry (given tag, generated name) at the index equal to the old count, increases the count by
one and leaves every other slot, the capacity and the other fields unchanged. -/
theorem C6_create_reports_failure {F : Type} (st : SceneManager F) (image : Option Image)
    (textureID : GLuint) (filename tag : String) (hwf : st.WF) :
    ((image = none ∨ ∃ img, image = some img ∧ img.colorChannels ≠ 3 ∧ img.colorChannels ≠ 4) →
      (st.CreateGLTexture image textureID filename tag).map (fun r => (r.ret, r.st))
        = some (false, st)) ∧
    ((∃ img, image = some img ∧ (img.colorChannels = 3 ∨ img.colorChannels = 4)) →
      st.m_loadedTextures < st.m_textureIDs.length →
      ∃ st1, (st.CreateGLTexture image textureID filename tag).map (fun r => (r.ret, r.st))
          = some (true, st1) ∧
        st1.m_textureIDs[st.m_loadedTextures]? = some { tag := tag, ID := textureID } ∧
        st1.m_loadedTextures = st.m_loadedTextures + 1 ∧
        (∀ i, i ≠ st.m_loadedTextures → st1.m_textureIDs[i]? = st.m_textureIDs[i]?) ∧
        st1.m_textureIDs.length = st.m_textureIDs.length ∧
        st1.m_objectMaterials = st.m_objectMaterials ∧
        st1.m_pShaderManager = st.m_pShaderManager ∧ st1.WF) := by
  constructor
  · rintro (hnone | ⟨img, hsome, h3, h4⟩)
    · subst hnone
      rfl
    · subst hsome
      simp [SceneManager.CreateGLTexture, h3, h4]
  · rintro ⟨img, hsome, hch⟩ hfree
    subst hsome
    have hreg : st.registerTexture textureID tag = some { st with
        m_textureIDs := st.m_textureIDs.set st.m_loadedTextures { tag := tag, ID := textureID }
        m_loadedTextures := st.m_loadedTextures + 1 } := by
      simp [SceneManager.registerTexture, hfree]
    refine ⟨{ st with
        m_textureIDs := st.m_textureIDs.set st.m_loadedTextures { tag := tag, ID := textureID }
        m_loadedTextures := st.m_loadedTextures + 1 }, ?_, ?_, rfl, ?_, ?_, rfl, rfl, ?_⟩
    · rcases hch with h3 | h4
      · simp [SceneManager.CreateGLTexture, h3, hreg]
      · by_cases h3 : img.colorChannels = 3
        · simp [SceneManager.CreateGLTexture, h3, hreg]
        · simp [SceneManager.CreateGLTexture, h3, h4, hreg]
    · simp only
      rw [List.getElem?_set_self hfree]
    · intro i hi
      simp only
      rw [List.getElem?_set_ne (Ne.symm hi)]
    · simp
    · exact SceneManager.registerTexture_WF st _ textureID tag hwf hreg

/-- C6 at a concrete input: loading a 3-channel image as `"oak"` into the sample scene, which has
two of its 16 slots in use. -/
theorem C6_create_reports_failure_witness :
    SceneManager.sampleScene.WF ∧
    (∃ img, (some ⟨64, 64, 3⟩ : Option Image) = some img ∧
      (img.colorChannels = 3 ∨ img.colorChannels = 4)) ∧
    SceneManager.sampleScene.m_loadedTextures < SceneManager.sampleScene.m_textureIDs.length ∧
    ∃ st1, (SceneManager.sampleScene.CreateGLTexture (some ⟨64, 64, 3⟩) 7 "oak.jpg" "oak").map
          (fun r => (r.ret, r.st)) = some (true, st1) ∧
        st1.m_textureIDs[SceneManager.sampleScene.m_loadedTextures]?
          = some { tag := "oak", ID := 7 } ∧
        st1.m_loadedTextures = SceneManager.sampleScene.m_loadedTextures + 1 ∧
        (∀ i, i ≠ SceneManager.sampleScene.m_loadedTextures →
          st1.m_textureIDs[i]? = SceneManager.sampleScene.m_textureIDs[i]?) ∧
        st1.m_textureIDs.length = SceneManager.sampleScene.m_textureIDs.length ∧
        st1.m_objectMaterials = SceneManager.sampleScene.m_objectMaterials ∧
        st1.m_pShaderManager = SceneManager.sampleScene.m_pShaderManager ∧ st1.WF :=
  ⟨by decide, ⟨⟨64, 64, 3⟩, rfl, Or.inl rfl⟩, by decide,
    (C6_create_reports_failure SceneManager.sampleScene (some ⟨64, 64, 3⟩) 7 "oak.jpg" "oak"
      (by decide)).2 ⟨⟨64, 64, 3⟩, rfl, Or.inl rfl⟩ (by decide)⟩

/-- C6 as stated fails on a full registry: with all 16 slots loaded, a decodable 3-channel
image is one of the "other cases", yet the call has no defined result (the write to
`m_textureIDs[16]` is outside the array), so it does not return `true` with one entry added. -/
theorem C6_counterexample_full_registry :
    SceneManager.fullScene.WF ∧
    SceneManager.fullScene.m_loadedTextures = SceneManager.fullScene.m_textureIDs.length ∧
    (SceneManager.fullScene.CreateGLTexture (some ⟨64, 64, 3⟩) 17 "oak.jpg" "oak").map Res.ret
      = none := by
  refine ⟨by decide, by decide, by decide⟩

namespace SceneManager

variable {F : Type}

/-- The sequence of statement kinds of `RenderScene` does not depend on the scalar type. -/
theorem body_kinds [Field F] :
    (RenderScene.body : List (Stmt F)).map Stmt.kind
      = (RenderScene.body : List (Stmt ℚ)).map Stmt.kind := by
  simp only [RenderScene.body, List.map_append, List.map_flatMap, List.map_cons, List.map_nil,
    Stmt.kind]

/-- With the count inside the array, `FindTextureSlot` has defined behaviour, returns
`slotOf`, and neither changes the state nor calls a collaborator. -/
theorem FindTextureSlot_eq (st : SceneManager F) (tag : String)
    (hle : st.m_loadedTextures ≤ st.m_textureIDs.length) :
    st.FindTextureSlot tag = some { ret := st.slotOf tag, st := st, out := [] } := by
  rcases textureLoops_spec st.m_textureIDs tag st.m_loadedTextures 0 (by omega) with
    ⟨_, h1, _⟩ | ⟨j, e, _, _, _, _, _, h1, _⟩
  · simp [FindTextureSlot, slotOf, h1]
  · simp [FindTextureSlot, slotOf, h1]

/-- On a non-empty material vector `FindMaterial` returns `true` with `materialOf`. -/
theorem FindMaterial_eq (st : SceneManager F) (tag : String) (uninit : OBJECT_MATERIAL F)
    (hne : st.m_objectMaterials.length ≠ 0) :
    st.FindMaterial tag uninit
      = some { ret := (true, st.materialOf uninit tag), st := st, out := [] } := by
  rcases materialLoop_spec st.m_objectMaterials tag uninit st.m_objectMaterials.length 0
    (by omega) with ⟨_, h1⟩ | ⟨j, m, _, _, _, _, _, h1⟩
  · simp [FindMaterial, materialOf, hne, h1]
  · simp [FindMaterial, materialOf, hne, h1]

/-- In a well-formed state with a shader manager every statement of the render routine has
defined behaviour, leaves the state as it was, and makes the calls listed by `emitted`. -/
theorem exec_eq_emitted [Field F] (T : glm.Trig F) (uninit : OBJECT_MATERIAL F)
    (st : SceneManager F) (hwf : st.WF) (hsm : st.m_pShaderManager = true) (s : Stmt F) :
    exec T uninit st s = some { ret := (), st := st, out := emitted T uninit st s } := by
  cases s with
  | SetTransformations sc x y z p =>
    simp only [exec, SetTransformations, hsm, if_true, emitted]
    rfl
  | SetShaderColor r g b a =>
    simp only [exec, SetShaderColor, hsm, if_true, emitted]
    rfl
  | SetShaderTexture tag =>
    simp only [exec, SetShaderTexture, hsm, if_true, emitted, FindTextureSlot_eq st tag hwf.1]
    rfl
  | SetTextureUVScale u v =>
    simp only [exec, SetTextureUVScale, hsm, if_true, emitted]
  | SetShaderMaterial tag =>
    by_cases hne : st.m_objectMaterials.length = 0
    · simp [exec, SetShaderMaterial, emitted, hne]
    · have hpos : st.m_objectMaterials.length > 0 := Nat.pos_of_ne_zero hne
      simp [exec, SetShaderMaterial, emitted, hpos, FindMaterial_eq st tag uninit hne, hsm]
  | Draw mesh =>
    simp only [exec, emitted]

/-- In a well-formed state with a shader manager a sequence of statements runs to its end,
leaves the state as it was, and makes the calls of its statements in order. -/
theorem run_eq_emitted [Field F] (T : glm.Trig F) (uninit : OBJECT_MATERIAL F)
    (st : SceneManager F) (hwf : st.WF) (hsm : st.m_pShaderManager = true) :
    ∀ stmts : List (Stmt F),
      run T uninit st stmts
        = some { ret := (), st := st, out := stmts.flatMap (emitted T uninit st) } := by
  intro stmts
  induction stmts with
  | nil => rfl
  | cons s rest ih =>
    simp only [run, exec_eq_emitted T uninit st hwf hsm s, ih, List.flatMap_cons]

end SceneManager

/-- C7. Per-object state emission in `RenderScene`: in a well-formed state with a non-null
shader manager the routine runs to its end and makes, statement by statement, the calls listed
by `emitted` (one `"model"` matrix for `SetTransformations`; the flag `"bUseTexture"` and the
sampler `"objectTexture"` for `SetShaderTexture`; `"UVscale"` for `SetTextureUVScale`; the
material uniforms for `SetShaderMaterial`); it issues 73 draws, and the statements that precede
each draw since the previous one are one `SetTransformations`, then (for the two walls) a
`SetShaderColor`, then `SetShaderTexture`, then `SetTextureUVScale`, then `SetShaderMaterial`,
the material selection being the last statement before the draw. -/
theorem C7_state_emission_before_draw {F : Type} [Field F] (T : glm.Trig F)
    (uninit : OBJECT_MATERIAL F) (st : SceneManager F) (hwf : st.WF)
    (hsm : st.m_pShaderManager = true) :
    st.RenderScene T uninit = some
      { ret := (), st := st,
        out := (SceneManager.RenderScene.body : List (SceneManager.Stmt F)).flatMap
          (SceneManager.emitted T uninit st) } ∧
    (SceneManager.drawSegments [] ((SceneManager.RenderScene.body :
      List (SceneManager.Stmt F)).map SceneManager.Stmt.kind)).length = 73 ∧
    ∀ seg ∈ SceneManager.drawSegments [] ((SceneManager.RenderScene.body :
        List (SceneManager.Stmt F)).map SceneManager.Stmt.kind),
      seg = [SceneManager.StmtKind.transformations, SceneManager.StmtKind.shaderTexture,
        SceneManager.StmtKind.textureUVScale, SceneManager.StmtKind.shaderMaterial] ∨
      seg = [SceneManager.StmtKind.transformations, SceneManager.StmtKind.shaderColor,
        SceneManager.StmtKind.shaderTexture, SceneManager.StmtKind.textureUVScale,
        SceneManager.StmtKind.shaderMaterial] := by
  refine ⟨SceneManager.run_eq_emitted T uninit st hwf hsm _, ?_, ?_⟩
  · rw [SceneManager.body_kinds]
    set_option maxRecDepth 100000 in decide
  · rw [SceneManager.body_kinds]
    set_option maxRecDepth 100000 in decide

/-- C7 at a concrete input: the sample scene. -/
theorem C7_state_emission_witness :
    SceneManager.sampleScene.WF ∧ SceneManager.sampleScene.m_pShaderManager = true ∧
    SceneManager.sampleScene.RenderScene glm.sampleTrig SceneManager.sampleUninit
      = some
        { ret := (), st := SceneManager.sampleScene,
          out := (SceneManager.RenderScene.body : List (SceneManager.Stmt ℚ)).flatMap
            (SceneManager.emitted glm.sampleTrig SceneManager.sampleUninit
              SceneManager.sampleScene) } :=
  ⟨by decide, rfl, (C7_state_emission_before_draw glm.sampleTrig SceneManager.sampleUninit
    SceneManager.sampleScene (by decide) rfl).1⟩

namespace SceneManager

variable {F : Type}

/-- The draws found in the trace of one statement followed by a trace are the draws the
statement asks for followed by those of the rest, whatever the registries hold. -/
theorem drawsWithModel_emitted [Field F] (T : glm.Trig F) (uninit : OBJECT_MATERIAL F)
    (st : SceneManager F) :
    ∀ (stmts : List (Stmt F)) (current : Option (glm.mat4 F)),
      drawsWithModel current (stmts.flatMap (emitted T uninit st))
        = scriptDraws T current stmts := by
  intro stmts
  induction stmts with
  | nil =>
    intro current
    rfl
  | cons s rest ih =>
    intro current
    rw [List.flatMap_cons]
    cases s with
    | SetTransformations sc x y z p =>
      show (if "model" = "model" then drawsWithModel _ _ else drawsWithModel _ _) = _
      rw [if_pos rfl]
      exact ih _
    | SetShaderColor r g b a => exact ih current
    | SetShaderTexture tag => exact ih current
    | SetTextureUVScale u v => exact ih current
    | SetShaderMaterial tag =>
      by_cases hne : st.m_objectMaterials.length > 0
      · simp only [emitted, hne, if_true]
        exact ih current
      · simp only [emitted, hne, if_false]
        exact ih current
    | Draw mesh =>
      show (mesh, current) :: drawsWithModel current (rest.flatMap (emitted T uninit st))
        = (mesh, current) :: scriptDraws T current rest
      rw [ih current]

/-- The meshes of the draws a sequence of statements asks for. -/
theorem scriptDraws_meshes [Field F] (T : glm.Trig F) :
    ∀ (stmts : List (Stmt F)) (current : Option (glm.mat4 F)),
      (scriptDraws T current stmts).map Prod.fst = (stmts.map Stmt.mesh?).reduceOption := by
  intro stmts
  induction stmts with
  | nil =>
    intro current
    rfl
  | cons s rest ih =>
    intro current
    cases s <;> simp [scriptDraws, Stmt.mesh?, ih, List.reduceOption_cons_of_some,
      List.reduceOption_cons_of_none]

/-- The sequence of meshes drawn by `RenderScene` does not depend on the scalar type. -/
theorem body_meshes [Field F] :
    (RenderScene.body : List (Stmt F)).map Stmt.mesh?
      = (RenderScene.body : List (Stmt ℚ)).map Stmt.mesh? := by
  simp only [RenderScene.body, List.map_append, List.map_flatMap, List.map_cons, List.map_nil,
    Stmt.mesh?]

end SceneManager

/-- C8. Rendering is unconditional: for any two well-formed states with a non-null shader
manager (whatever their texture and material registries hold, empty ones included),
`RenderScene` runs to its end in both and issues the same sequence of draws with the same
`"model"` matrices: 73 draws, namely 5 scene objects, then the 60 key boxes of the 5-by-12 loop,
then 8 further objects, with the primitive kinds and cap flags listed. -/
theorem C8_rendering_unconditional {F : Type} [Field F] (T : glm.Trig F)
    (uninit1 uninit2 : OBJECT_MATERIAL F) (st1 st2 : SceneManager F)
    (hwf1 : st1.WF) (hsm1 : st1.m_pShaderManager = true)
    (hwf2 : st2.WF) (hsm2 : st2.m_pShaderManager = true) :
    ∃ r1 r2, st1.RenderScene T uninit1 = some r1 ∧ st2.RenderScene T uninit2 = some r2 ∧
      SceneManager.drawsWithModel none r1.out = SceneManager.drawsWithModel none r2.out ∧
      (SceneManager.drawsWithModel none r1.out).length = 73 ∧
      (SceneManager.drawsWithModel none r1.out).map Prod.fst
        = [MeshDraw.DrawPlaneMesh, MeshDraw.DrawCylinderMesh [false, true, true],
            MeshDraw.DrawCylinderMesh [true, false, true], MeshDraw.DrawTorusMesh,
            MeshDraw.DrawBoxMesh]
          ++ List.replicate 60 MeshDraw.DrawBoxMesh
          ++ [MeshDraw.DrawSphereMesh, MeshDraw.DrawCylinderMesh [], MeshDraw.DrawBoxMesh,
            MeshDraw.DrawBoxMesh, MeshDraw.DrawBoxMesh, MeshDraw.DrawBoxMesh,
            MeshDraw.DrawCylinderMesh [], MeshDraw.DrawBoxMesh] := by
  have hmesh : ∀ current : Option (glm.mat4 F),
      (SceneManager.scriptDraws T current SceneManager.RenderScene.body).map Prod.fst
        = [MeshDraw.DrawPlaneMesh, MeshDraw.DrawCylinderMesh [false, true, true],
            MeshDraw.DrawCylinderMesh [true, false, true], MeshDraw.DrawTorusMesh,
            MeshDraw.DrawBoxMesh]
          ++ List.replicate 60 MeshDraw.DrawBoxMesh
          ++ [MeshDraw.DrawSphereMesh, MeshDraw.DrawCylinderMesh [], MeshDraw.DrawBoxMesh,
            MeshDraw.DrawBoxMesh, MeshDraw.DrawBoxMesh, MeshDraw.DrawBoxMesh,
            MeshDraw.DrawCylinderMesh [], MeshDraw.DrawBoxMesh] := by
    intro current
    rw [SceneManager.scriptDraws_meshes, SceneManager.body_meshes]
    set_option maxRecDepth 100000 in decide
  refine ⟨_, _, SceneManager.run_eq_emitted T uninit1 st1 hwf1 hsm1 _,
    SceneManager.run_eq_emitted T uninit2 st2 hwf2 hsm2 _, ?_, ?_, ?_⟩
  · simp only [SceneManager.drawsWithModel_emitted]
  · simp only [SceneManager.drawsWithModel_emitted]
    have hlen := congrArg List.length (hmesh none)
    rw [List.length_map] at hlen
    rw [hlen]
    rfl
  · simp only [SceneManager.drawsWithModel_emitted]
    exact hmesh none

/-- C8 at a concrete input: the sample scene against the scene with both registries empty. -/
theorem C8_rendering_unconditional_witness :
    SceneManager.sampleScene.WF ∧ SceneManager.sampleScene.m_pShaderManager = true ∧
    SceneManager.emptyScene.WF ∧ SceneManager.emptyScene.m_pShaderManager = true ∧
    ∃ r1 r2, SceneManager.sampleScene.RenderScene glm.sampleTrig SceneManager.sampleUninit
        = some r1 ∧
      SceneManager.emptyScene.RenderScene glm.sampleTrig SceneManager.sampleUninit = some r2 ∧
      SceneManager.drawsWithModel none r1.out = SceneManager.drawsWithModel none r2.out ∧
      (SceneManager.drawsWithModel none r1.out).length = 73 ∧
      (SceneManager.drawsWithModel none r1.out).map Prod.fst
        = [MeshDraw.DrawPlaneMesh, MeshDraw.DrawCylinderMesh [false, true, true],
            MeshDraw.DrawCylinderMesh [true, false, true], MeshDraw.DrawTorusMesh,
            MeshDraw.DrawBoxMesh]
          ++ List.replicate 60 MeshDraw.DrawBoxMesh
          ++ [MeshDraw.DrawSphereMesh, MeshDraw.DrawCylinderMesh [], MeshDraw.DrawBoxMesh,
            MeshDraw.DrawBoxMesh, MeshDraw.DrawBoxMesh, MeshDraw.DrawBoxMesh,
            MeshDraw.DrawCylinderMesh [], MeshDraw.DrawBoxMesh] :=
  ⟨by decide, rfl, by decide, rfl,
    C8_rendering_unconditional glm.sampleTrig SceneManager.sampleUninit
      SceneManager.sampleUninit SceneManager.sampleScene SceneManager.emptyScene
      (by decide) rfl (by decide) rfl⟩

namespace SceneManager

variable {F : Type}

/-- The loop of `DestroyGLTextures` inside the array: it has defined behaviour, makes one
`glGenTextures` call per index of its range, overwrites the stored name of each of these
entries with the generated one, and touches nothing else. -/
theorem destroyLoop_spec (generated : Nat → GLuint) :
    ∀ (k i : Nat) (arr : List TEXTURE_INFO), i + k ≤ arr.length →
      ∃ arr1 : List TEXTURE_INFO,
        (DestroyGLTextures.loop generated k i arr : Option (List TEXTURE_INFO × List (Call F)))
          = some (arr1, (List.range' i k).map fun j => Call.glGenTextures 1 (generated j)) ∧
        arr1.length = arr.length ∧
        ∀ j : Nat, arr1[j]? = if i ≤ j ∧ j < i + k
          then (arr[j]?).map (fun e => { e with ID := generated j }) else arr[j]? := by
  intro k
  induction k with
  | zero =>
    intro i arr _
    refine ⟨arr, rfl, rfl, ?_⟩
    intro j
    have hnot : ¬ (i ≤ j ∧ j < i + 0) := by omega
    rw [if_neg hnot]
  | succ k ih =>
    intro i arr hi
    have hlt : i < arr.length := by omega
    have hget : arr[i]? = some arr[i] := List.getElem?_eq_getElem hlt
    obtain ⟨arr1, hloop, hlen, hpt⟩ := ih (i + 1)
      (arr.set i { arr[i] with ID := generated i }) (by simp only [List.length_set]; omega)
    refine ⟨arr1, ?_, ?_, ?_⟩
    · simp only [DestroyGLTextures.loop, hget, hloop, Option.map_some', List.range'_succ,
        List.map_cons]
    · rw [hlen, List.length_set]
    · intro j
      rw [hpt j, List.getElem?_set]
      by_cases hji : i = j
      · subst hji
        have h1 : ¬ (i + 1 ≤ i ∧ i < i + 1 + k) := by omega
        have h2 : i ≤ i ∧ i < i + (k + 1) := by omega
        rw [if_neg h1, if_pos h2, if_pos rfl, if_pos hlt, hget]
        rfl
      · by_cases hr : i + 1 ≤ j ∧ j < i + 1 + k
        · have h2 : i ≤ j ∧ j < i + (k + 1) := by omega
          rw [if_pos hr, if_pos h2, if_neg hji]
        · have h2 : ¬ (i ≤ j ∧ j < i + (k + 1)) := by omega
          rw [if_neg hr, if_neg h2, if_neg hji]

/-- The loop of `FindTextureSlot` reads only the tags: on two arrays whose slots carry the same
tags it returns the same result. -/
theorem slotLoop_congr (arr arr1 : List TEXTURE_INFO) (tag : String)
    (htags : ∀ j : Nat, (arr1[j]?).map TEXTURE_INFO.tag = (arr[j]?).map TEXTURE_INFO.tag) :
    ∀ (k i : Nat), FindTextureSlot.loop arr1 tag k i = FindTextureSlot.loop arr tag k i := by
  intro k
  induction k with
  | zero =>
    intro i
    rfl
  | succ k ih =>
    intro i
    have hi := htags i
    cases h1 : arr1[i]? with
    | none =>
      cases h0 : arr[i]? with
      | none => simp [FindTextureSlot.loop, h1, h0]
      | some e0 => simp [h1, h0] at hi
    | some e1 =>
      cases h0 : arr[i]? with
      | none => simp [h1, h0] at hi
      | some e0 =>
        have htag : e1.tag = e0.tag := by simpa [h1, h0] using hi
        simp only [FindTextureSlot.loop, h1, h0, htag, ih (i + 1)]

end SceneManager

/-- C9. Teardown regenerates instead of deleting: in a well-formed registry with `n` loaded
textures, `DestroyGLTextures` makes exactly `n` calls, all of them `glGenTextures` (one per
loaded entry, whose stored name it overwrites with the generated one) and none of them
`glDeleteTextures`; it leaves the loaded count, the capacity, every tag, the slots from `n` on
and the materials unchanged, so `FindTextureSlot` returns the same result for every tag after
the call as before it. -/
theorem C9_destroy_regenerates {F : Type} (st : SceneManager F) (generated : Nat → GLuint)
    (hwf : st.WF) :
    ∃ r, st.DestroyGLTextures generated = some r ∧
      r.out = (List.range st.m_loadedTextures).map
        (fun i => Call.glGenTextures 1 (generated i)) ∧
      r.out.length = st.m_loadedTextures ∧
      (∀ c ∈ r.out, ∀ n name, c ≠ Call.glDeleteTextures n name) ∧
      r.st.m_loadedTextures = st.m_loadedTextures ∧
      r.st.m_textureIDs.length = st.m_textureIDs.length ∧
      (∀ j : Nat, (r.st.m_textureIDs[j]?).map TEXTURE_INFO.tag
        = (st.m_textureIDs[j]?).map TEXTURE_INFO.tag) ∧
      (∀ j : Nat, j < st.m_loadedTextures →
        (r.st.m_textureIDs[j]?).map TEXTURE_INFO.ID = some (generated j)) ∧
      (∀ j : Nat, st.m_loadedTextures ≤ j → r.st.m_textureIDs[j]? = st.m_textureIDs[j]?) ∧
      r.st.m_objectMaterials = st.m_objectMaterials ∧
      ∀ tag, (r.st.FindTextureSlot tag).map Res.ret = (st.FindTextureSlot tag).map Res.ret := by
  obtain ⟨arr1, hloop, hlen, hpt⟩ := SceneManager.destroyLoop_spec (F := F) generated
    st.m_loadedTextures 0 st.m_textureIDs (by have := hwf.1; omega)
  have htags : ∀ j : Nat, (arr1[j]?).map TEXTURE_INFO.tag
      = (st.m_textureIDs[j]?).map TEXTURE_INFO.tag := by
    intro j
    rw [hpt j]
    split
    · cases st.m_textureIDs[j]? <;> rfl
    · rfl
  refine ⟨{ ret := (), st := { st with m_textureIDs := arr1 },
            out := (List.range st.m_loadedTextures).map
              (fun i => Call.glGenTextures 1 (generated i)) }, ?_, rfl, ?_, ?_, rfl, hlen,
    htags, ?_, ?_, rfl, ?_⟩
  · simp only [SceneManager.DestroyGLTextures, hloop, Option.map_some', List.range_eq_range']
  · simp
  · intro c hc n name heq
    rw [List.mem_map] at hc
    obtain ⟨i, _, hi⟩ := hc
    rw [heq] at hi
    cases hi
  · intro j hj
    have hin : 0 ≤ j ∧ j < 0 + st.m_loadedTextures := by omega
    have hjl : j < st.m_textureIDs.length := by have := hwf.1; omega
    simp only
    rw [hpt j, if_pos hin, List.getElem?_eq_getElem hjl]
    rfl
  · intro j hj
    have hout : ¬ (0 ≤ j ∧ j < 0 + st.m_loadedTextures) := by omega
    simp only
    rw [hpt j, if_neg hout]
  · intro tag
    simp only [SceneManager.FindTextureSlot, Option.map_map]
    rw [SceneManager.slotLoop_congr st.m_textureIDs arr1 tag htags]
    rfl

/-- C9 at a concrete input: the sample scene, with OpenGL handing out the names 100, 101, ... -/
theorem C9_destroy_regenerates_witness :
    SceneManager.sampleScene.WF ∧
    ∃ r, SceneManager.sampleScene.DestroyGLTextures (fun i => 100 + i) = some r ∧
      r.out = (List.range SceneManager.sampleScene.m_loadedTextures).map
        (fun i => Call.glGenTextures 1 (100 + i)) ∧
      r.out.length = SceneManager.sampleScene.m_loadedTextures ∧
      (∀ c ∈ r.out, ∀ n name, c ≠ Call.glDeleteTextures n name) ∧
      r.st.m_loadedTextures = SceneManager.sampleScene.m_loadedTextures ∧
      r.st.m_textureIDs.length = SceneManager.sampleScene.m_textureIDs.length ∧
      (∀ j : Nat, (r.st.m_textureIDs[j]?).map TEXTURE_INFO.tag
        = (SceneManager.sampleScene.m_textureIDs[j]?).map TEXTURE_INFO.tag) ∧
      (∀ j : Nat, j < SceneManager.sampleScene.m_loadedTextures →
        (r.st.m_textureIDs[j]?).map TEXTURE_INFO.ID = some (100 + j)) ∧
      (∀ j : Nat, SceneManager.sampleScene.m_loadedTextures ≤ j →
        r.st.m_textureIDs[j]? = SceneManager.sampleScene.m_textureIDs[j]?) ∧
      r.st.m_objectMaterials = SceneManager.sampleScene.m_objectMaterials ∧
      ∀ tag, (r.st.FindTextureSlot tag).map Res.ret
        = (SceneManager.sampleScene.FindTextureSlot tag).map Res.ret :=
  ⟨by decide, C9_destroy_regenerates SceneManager.sampleScene (fun i => 100 + i) (by decide)⟩

namespace SceneManager

variable {F : Type}

end SceneManager

namespace SceneManager

variable {F : Type}

end SceneManager

namespace SceneManager

variable {F : Type}

/-- With the count inside the array, a tag carried by a loaded entry has a first loaded entry
carrying it. -/
theorem exists_firstAt_of_mem (st : SceneManager F) (tag : String)
    (hle : st.m_loadedTextures ≤ st.m_textureIDs.length) (hmem : tag ∈ st.loadedTags) :
    ∃ j e, st.FirstAt tag j e := by
  rcases textureLoops_spec st.m_textureIDs tag st.m_loadedTextures 0 (by omega) with
    ⟨hno, _, _⟩ | ⟨j, e, _, hj, hje, het, hfirst, _, _⟩
  · obtain ⟨j, hj, hcarry⟩ := (mem_loadedTags_iff st tag).1 hmem
    exact absurd hcarry (hno j (Nat.zero_le j) (by omega))
  · exact ⟨j, e, by omega, hje, het, fun j2 hj2 => hfirst j2 (Nat.zero_le j2) hj2⟩

/-- The value sent as sampler: the index of the first loaded entry carrying the tag. -/
theorem slotOf_of_firstAt (st : SceneManager F) (tag : String) (j : Nat) (e : TEXTURE_INFO)
    (hle : st.m_loadedTextures ≤ st.m_textureIDs.length) (hf : st.FirstAt tag j e) :
    st.slotOf tag = (j : Int) := by
  have h1 := (lookups_of_firstAt st tag j e hle hf).2
  rw [FindTextureSlot_eq st tag hle] at h1
  exact congrArg Res.ret (Option.some.inj h1)

/-- The value sent as sampler for a tag no loaded entry carries: `-1`. -/
theorem slotOf_of_not_mem (st : SceneManager F) (tag : String)
    (hle : st.m_loadedTextures ≤ st.m_textureIDs.length) (h : tag ∉ st.loadedTags) :
    st.slotOf tag = -1 := by
  have h1 := (lookups_of_not_mem st tag hle h).2
  rw [FindTextureSlot_eq st tag hle] at h1
  exact congrArg Res.ret (Option.some.inj h1)

end SceneManager

/-- C11. `SetShaderTexture` sends the slot, not the handle: in a well-formed state with a
non-null shader manager, `SetShaderTexture` sets `"bUseTexture"` to true (`1`) and then sets
the sampler `"objectTexture"` to the value `FindTextureSlot` returns for the tag, which is the
index of the first loaded entry carrying the tag, whatever name that entry stores; when no
loaded entry carries the tag it still sets the flag to true and sets the sampler to `-1`. -/
theorem C11_setShaderTexture_sends_slot {F : Type} (st : SceneManager F)
    (tag : String) (hwf : st.WF) (hsm : st.m_pShaderManager = true) :
    ∃ slot : Int,
      st.FindTextureSlot tag = some { ret := slot, st := st, out := [] } ∧
      st.SetShaderTexture tag = some
        { ret := (), st := st,
          out := [Call.setIntValue "bUseTexture" 1,
                  Call.setSampler2DValue "objectTexture" slot] } ∧
      (∀ (j : Nat) (e : TEXTURE_INFO), st.FirstAt tag j e → slot = (j : Int)) ∧
      (tag ∉ st.loadedTags → slot = -1) := by
  refine ⟨st.slotOf tag, SceneManager.FindTextureSlot_eq st tag hwf.1, ?_, ?_, ?_⟩
  · simp only [SceneManager.SetShaderTexture, hsm, if_true,
      SceneManager.FindTextureSlot_eq st tag hwf.1]
    rfl
  · intro j e hf
    exact SceneManager.slotOf_of_firstAt st tag j e hwf.1 hf
  · intro h
    exact SceneManager.slotOf_of_not_mem st tag hwf.1 h

/-- C11 at a concrete input: in the sample scene `"stainless"` sits at index 1 with the
name 2; the sampler is set to 1. -/
theorem C11_setShaderTexture_witness :
    SceneManager.sampleScene.WF ∧ SceneManager.sampleScene.m_pShaderManager = true ∧
    SceneManager.sampleScene.FirstAt "stainless" 1 ⟨"stainless", 2⟩ ∧
    SceneManager.sampleScene.SetShaderTexture "stainless" = some
      { ret := (), st := SceneManager.sampleScene,
        out := [Call.setIntValue "bUseTexture" 1,
                Call.setSampler2DValue "objectTexture" 1] } := by
  have hf : SceneManager.sampleScene.FirstAt "stainless" 1 ⟨"stainless", 2⟩ := by
    refine ⟨by decide, rfl, rfl, ?_⟩
    intro j2 hj2
    have h0 : j2 = 0 := by omega
    subst h0
    decide
  obtain ⟨slot, _, hset, hslot, _⟩ := C11_setShaderTexture_sends_slot
    SceneManager.sampleScene "stainless" (by decide) rfl
  have h1 : slot = 1 := hslot 1 _ hf
  subst h1
  exact ⟨by decide, rfl, hf, hset⟩

/-- C12. First match wins and the two texture lookups agree: in a well-formed registry (tags may
repeat), `FindTextureSlot` returns `-1` exactly when no loaded entry carries the tag; otherwise
it returns the least index below the loaded count whose entry carries the tag, and
`FindTextureID` returns the name stored at that index, converted to `int`. -/
theorem C12_first_match_wins {F : Type} (st : SceneManager F) (tag : String) (hwf : st.WF) :
    ∃ slot id : Int,
      st.FindTextureSlot tag = some { ret := slot, st := st, out := [] } ∧
      st.FindTextureID tag = some { ret := id, st := st, out := [] } ∧
      (slot = -1 ↔ tag ∉ st.loadedTags) ∧
      (slot ≠ -1 → ∃ (i : Nat) (e : TEXTURE_INFO),
        slot = (i : Int) ∧ i < st.m_loadedTextures ∧ st.m_textureIDs[i]? = some e ∧
        e.tag = tag ∧
        (∀ j : Nat, j < i → (st.m_textureIDs[j]?).map TEXTURE_INFO.tag ≠ some tag) ∧
        id = GLuintToInt e.ID) := by
  by_cases hmem : tag ∈ st.loadedTags
  · obtain ⟨j, e, hf⟩ := SceneManager.exists_firstAt_of_mem st tag hwf.1 hmem
    obtain ⟨hid, hslot⟩ := SceneManager.lookups_of_firstAt st tag j e hwf.1 hf
    refine ⟨(j : Int), GLuintToInt e.ID, hslot, hid, ?_, ?_⟩
    · constructor
      · intro h
        omega
      · intro h
        exact absurd hmem h
    · intro _
      exact ⟨j, e, rfl, hf.1, hf.2.1, hf.2.2.1, hf.2.2.2, rfl⟩
  · obtain ⟨hid, hslot⟩ := SceneManager.lookups_of_not_mem st tag hwf.1 hmem
    refine ⟨-1, -1, hslot, hid, ?_, ?_⟩
    · exact ⟨fun _ => hmem, fun _ => rfl⟩
    · intro h
      exact absurd rfl h

/-- C12 at a concrete input: the sample scene and the tag `"stainless"`. -/
theorem C12_first_match_wins_witness :
    SceneManager.sampleScene.WF ∧
    ∃ slot id : Int,
      SceneManager.sampleScene.FindTextureSlot "stainless"
        = some { ret := slot, st := SceneManager.sampleScene, out := [] } ∧
      SceneManager.sampleScene.FindTextureID "stainless"
        = some { ret := id, st := SceneManager.sampleScene, out := [] } ∧
      (slot = -1 ↔ "stainless" ∉ SceneManager.sampleScene.loadedTags) ∧
      (slot ≠ -1 → ∃ (i : Nat) (e : TEXTURE_INFO),
        slot = (i : Int) ∧ i < SceneManager.sampleScene.m_loadedTextures ∧
        SceneManager.sampleScene.m_textureIDs[i]? = some e ∧ e.tag = "stainless" ∧
        (∀ j : Nat, j < i →
          (SceneManager.sampleScene.m_textureIDs[j]?).map TEXTURE_INFO.tag
            ≠ some "stainless") ∧
        id = GLuintToInt e.ID) :=
  ⟨by decide, C12_first_match_wins SceneManager.sampleScene "stainless" (by decide)⟩

namespace SceneManager

variable {F : Type}

/-- A decodable image with 3 or 4 channels and a free slot: `CreateGLTexture` returns `true`
and registers the entry at the old count. -/
theorem CreateGLTexture_ok (st : SceneManager F) (img : Image) (h : GLuint)
    (filename tag : String) (hch : img.colorChannels = 3 ∨ img.colorChannels = 4)
    (hfree : st.m_loadedTextures < st.m_textureIDs.length) :
    ∃ r, st.CreateGLTexture (some img) h filename tag = some r ∧ r.ret = true ∧
      r.st.m_loadedTextures = st.m_loadedTextures + 1 ∧
      r.st.m_textureIDs = st.m_textureIDs.set st.m_loadedTextures { tag := tag, ID := h } ∧
      r.st.m_objectMaterials = st.m_objectMaterials ∧
      r.st.m_pShaderManager = st.m_pShaderManager := by
  have hreg : st.registerTexture h tag = some { st with
      m_textureIDs := st.m_textureIDs.set st.m_loadedTextures { tag := tag, ID := h }
      m_loadedTextures := st.m_loadedTextures + 1 } := by
    simp [registerTexture, hfree]
  have hmap : (st.CreateGLTexture (some img) h filename tag).map (fun r => (r.ret, r.st))
      = some (true, { st with
        m_textureIDs := st.m_textureIDs.set st.m_loadedTextures { tag := tag, ID := h }
        m_loadedTextures := st.m_loadedTextures + 1 }) := by
    rcases hch with h3 | h4
    · simp [CreateGLTexture, h3, hreg]
    · by_cases h3 : img.colorChannels = 3
      · simp [CreateGLTexture, h3, hreg]
      · simp [CreateGLTexture, h3, h4, hreg]
  cases hc : st.CreateGLTexture (some img) h filename tag with
  | none =>
    rw [hc] at hmap
    exact absurd hmap (by simp)
  | some r =>
    rw [hc] at hmap
    simp only [Option.map_some', Option.some.injEq, Prod.mk.injEq] at hmap
    refine ⟨r, rfl, hmap.1, ?_, ?_, ?_, ?_⟩ <;> rw [hmap.2]

/-- The loads of `LoadSceneTextures` on decodable files with room in the array: the run is
defined, registers the tags one after the other from the old count on, and leaves the earlier
slots, the capacity and the other fields alone. -/
theorem loads_spec (decode : String → Option Image) (generated : Nat → GLuint) :
    ∀ (files : List (String × String)) (st : SceneManager F) (k : Nat),
      (∀ f ∈ files, ∃ img, decode f.1 = some img ∧
        (img.colorChannels = 3 ∨ img.colorChannels = 4)) →
      st.m_loadedTextures + files.length ≤ st.m_textureIDs.length →
      ∃ r, LoadSceneTextures.loads decode generated st k files = some r ∧
        r.st.m_loadedTextures = st.m_loadedTextures + files.length ∧
        r.st.m_textureIDs.length = st.m_textureIDs.length ∧
        r.st.m_objectMaterials = st.m_objectMaterials ∧
        r.st.m_pShaderManager = st.m_pShaderManager ∧
        (∀ (i : Nat) (f : String × String), files[i]? = some f →
          r.st.m_textureIDs[st.m_loadedTextures + i]?
            = some { tag := f.2, ID := generated (k + i) }) ∧
        (∀ j : Nat, j < st.m_loadedTextures → r.st.m_textureIDs[j]? = st.m_textureIDs[j]?) := by
  intro files
  induction files with
  | nil =>
    intro st k _ _
    refine ⟨{ ret := (), st := st, out := [] }, rfl, rfl, rfl, rfl, rfl, ?_, fun _ _ => rfl⟩
    intro i f hf
    simp at hf
  | cons f0 rest ih =>
    intro st k hdec hroom
    obtain ⟨filename, tag⟩ := f0
    obtain ⟨img, himg, hch⟩ := hdec (filename, tag) (List.mem_cons_self _ _)
    simp only at himg
    simp only [List.length_cons] at hroom
    obtain ⟨r1, hcreate, _, hc1, ha1, hm1, hs1⟩ := CreateGLTexture_ok st img (generated k)
      filename tag hch (by omega)
    have hl1 : r1.st.m_textureIDs.length = st.m_textureIDs.length := by
      rw [ha1, List.length_set]
    obtain ⟨r2, hrest, hcount, hcap, hmats, hsm, hnew, hold⟩ := ih r1.st (k + 1)
      (fun f hf => hdec f (List.mem_cons_of_mem _ hf)) (by omega)
    refine ⟨{ ret := (), st := r2.st, out := r1.out ++ r2.out }, ?_, ?_, ?_, ?_, ?_, ?_, ?_⟩
    · simp only [LoadSceneTextures.loads, himg, hcreate, hrest]
    · show r2.st.m_loadedTextures = st.m_loadedTextures + (rest.length + 1)
      omega
    · show r2.st.m_textureIDs.length = st.m_textureIDs.length
      omega
    · show r2.st.m_objectMaterials = st.m_objectMaterials
      rw [hmats, hm1]
    · show r2.st.m_pShaderManager = st.m_pShaderManager
      rw [hsm, hs1]
    · intro i f hf
      show r2.st.m_textureIDs[st.m_loadedTextures + i]? = _
      cases i with
      | zero =>
        simp only [List.getElem?_cons_zero, Option.some.injEq] at hf
        subst hf
        rw [Nat.add_zero, Nat.add_zero, hold st.m_loadedTextures (by omega), ha1,
          List.getElem?_set_self (by omega)]
      | succ i =>
        simp only [List.getElem?_cons_succ] at hf
        have h1 := hnew i f hf
        have e1 : st.m_loadedTextures + (i + 1) = r1.st.m_loadedTextures + i := by omega
        have e2 : k + (i + 1) = k + 1 + i := by omega
        rw [e1, e2]
        exact h1
    · intro j hj
      show r2.st.m_textureIDs[j]? = _
      rw [hold j (by omega), ha1, List.getElem?_set_ne (by omega)]

end SceneManager

namespace SceneManager

variable {F : Type}

/-- The loop of `BindGLTextures` inside the array: it has defined behaviour; its calls are, for
each index of its range in turn, `glActiveTexture` of that unit followed by `glBindTexture` of
the name stored at that index; afterwards each unit of the range is bound to the name stored at
its index and every other unit is bound as before. -/
theorem bindLoop_spec (arr : List TEXTURE_INFO) :
    ∀ (k i : Nat), i + k ≤ arr.length →
      (BindGLTextures.loop arr k i : Option (List (Call F)))
        = some ((((arr.drop i).take k).enumFrom i).flatMap fun p =>
            [Call.glActiveTexture p.1, Call.glBindTexture "GL_TEXTURE_2D" p.2.ID]) ∧
      ∀ g : GLBindings,
        (∀ (j : Nat) (e : TEXTURE_INFO), i ≤ j → j < i + k → arr[j]? = some e →
          (glRun g ((((arr.drop i).take k).enumFrom i).flatMap fun p =>
            ([Call.glActiveTexture p.1, Call.glBindTexture "GL_TEXTURE_2D" p.2.ID] :
              List (Call F)))).bound j = e.ID) ∧
        (∀ u : Nat, (u < i ∨ i + k ≤ u) →
          (glRun g ((((arr.drop i).take k).enumFrom i).flatMap fun p =>
            ([Call.glActiveTexture p.1, Call.glBindTexture "GL_TEXTURE_2D" p.2.ID] :
              List (Call F)))).bound u = g.bound u) := by
  intro k
  induction k with
  | zero =>
    intro i _
    refine ⟨rfl, fun g => ⟨?_, ?_⟩⟩
    · intro j e h1 h2
      omega
    · intro u _
      simp [glRun]
  | succ k ih =>
    intro i hi
    have hlt : i < arr.length := by omega
    have hget : arr[i]? = some arr[i] := List.getElem?_eq_getElem hlt
    have hdrop : arr.drop i = arr[i] :: arr.drop (i + 1) := List.drop_eq_getElem_cons hlt
    obtain ⟨hloop, hgl⟩ := ih (i + 1) (by omega)
    have htrace : ((((arr.drop i).take (k + 1)).enumFrom i).flatMap fun p =>
          ([Call.glActiveTexture p.1, Call.glBindTexture "GL_TEXTURE_2D" p.2.ID] :
            List (Call F)))
        = Call.glActiveTexture i :: Call.glBindTexture "GL_TEXTURE_2D" (arr[i]).ID ::
          ((((arr.drop (i + 1)).take k).enumFrom (i + 1)).flatMap fun p =>
            ([Call.glActiveTexture p.1, Call.glBindTexture "GL_TEXTURE_2D" p.2.ID] :
              List (Call F))) := by
      rw [hdrop, List.take_succ_cons, List.enumFrom_cons, List.flatMap_cons]
      rfl
    rw [htrace]
    refine ⟨?_, fun g => ?_⟩
    · simp only [BindGLTextures.loop, hget, hloop, Option.map_some']
    · obtain ⟨hin, hout⟩ := hgl
        { active := i, bound := fun u => if u = i then (arr[i]).ID else g.bound u }
      have hrun : ∀ rest : List (Call F),
          glRun g (Call.glActiveTexture i :: Call.glBindTexture "GL_TEXTURE_2D" (arr[i]).ID
            :: rest)
          = glRun { active := i, bound := fun u => if u = i then (arr[i]).ID else g.bound u }
              rest := by
        intro rest
        rfl
      rw [hrun]
      constructor
      · intro j e h1 h2 hje
        by_cases hji : j = i
        · subst hji
          rw [hout j (Or.inl (by omega))]
          rw [hget] at hje
          simp only [if_true]
          exact congrArg TEXTURE_INFO.ID (Option.some.inj hje)
        · exact hin j e (by omega) (by omega) hje
      · intro u hu
        rw [hout u (by omega)]
        have hne : u ≠ i := by omega
        simp only [hne, if_false]

/-- With the count inside the array, `BindGLTextures` has defined behaviour and leaves the
state as it was. -/
theorem BindGLTextures_eq (st : SceneManager F)
    (hle : st.m_loadedTextures ≤ st.m_textureIDs.length) :
    st.BindGLTextures = some
      { ret := (), st := st,
        out := ((st.m_textureIDs.take st.m_loadedTextures).enum).flatMap fun p =>
          [Call.glActiveTexture p.1, Call.glBindTexture "GL_TEXTURE_2D" p.2.ID] } := by
  have h := (bindLoop_spec (F := F) st.m_textureIDs st.m_loadedTextures 0 (by omega)).1
  simp only [List.drop_zero] at h
  simp only [BindGLTextures, h, Option.map_some', List.enum]

end SceneManager

namespace SceneManager

variable {F : Type}

/-- The texture tags `RenderScene` passes do not depend on the scalar type. -/
theorem body_textureTags [Field F] :
    (RenderScene.body : List (Stmt F)).map Stmt.textureTag?
      = (RenderScene.body : List (Stmt ℚ)).map Stmt.textureTag? := by
  simp only [RenderScene.body, List.map_append, List.map_flatMap, List.map_cons, List.map_nil,
    Stmt.textureTag?]

/-- The material tags `RenderScene` passes do not depend on the scalar type. -/
theorem body_materialTags [Field F] :
    (RenderScene.body : List (Stmt F)).map Stmt.materialTag?
      = (RenderScene.body : List (Stmt ℚ)).map Stmt.materialTag? := by
  simp only [RenderScene.body, List.map_append, List.map_flatMap, List.map_cons, List.map_nil,
    Stmt.materialTag?]

/-- The tags of the eight materials of `DefineObjectMaterials`, in order. -/
theorem materials_tags [Field F] :
    (DefineObjectMaterials.materials : List (OBJECT_MATERIAL F)).map OBJECT_MATERIAL.tag
      = ["metal", "cement", "wood", "tile", "glass", "clay", "plastic", "lightplastic"] := by
  simp only [DefineObjectMaterials.materials, List.map_cons, List.map_nil]

/-- From an empty texture registry with room for eight entries and eight decodable files,
`LoadSceneTextures` has defined behaviour and leaves the eight tags in the slots 0 to 7, in
source order, with the count at 8. -/
theorem LoadSceneTextures_spec (st0 : SceneManager F) (decode : String → Option Image)
    (generated : Nat → GLuint) (htex : st0.m_loadedTextures = 0)
    (hroom : 8 ≤ st0.m_textureIDs.length)
    (hload : ∀ f ∈ LoadSceneTextures.files, ∃ img, decode f.1 = some img ∧
      (img.colorChannels = 3 ∨ img.colorChannels = 4)) :
    ∃ r1, st0.LoadSceneTextures decode generated = some r1 ∧
      r1.st.m_loadedTextures = 8 ∧
      r1.st.m_textureIDs.length = st0.m_textureIDs.length ∧
      r1.st.m_objectMaterials = st0.m_objectMaterials ∧
      r1.st.m_pShaderManager = st0.m_pShaderManager ∧
      ∀ (i : Nat) (f : String × String), LoadSceneTextures.files[i]? = some f →
        r1.st.m_textureIDs[i]? = some { tag := f.2, ID := generated i } := by
  have hlen : LoadSceneTextures.files.length = 8 := rfl
  obtain ⟨r, hr, hcount, hcap, hmats, hsm, hnew, _⟩ := loads_spec (F := F) decode generated
    LoadSceneTextures.files st0 0 hload (by omega)
  have hle : r.st.m_loadedTextures ≤ r.st.m_textureIDs.length := by omega
  refine ⟨{ ret := (), st := r.st,
            out := r.out ++ ((r.st.m_textureIDs.take r.st.m_loadedTextures).enum).flatMap
              fun p => [Call.glActiveTexture p.1, Call.glBindTexture "GL_TEXTURE_2D" p.2.ID] },
    ?_, ?_, hcap, hmats, hsm, ?_⟩
  · simp only [LoadSceneTextures, hr, BindGLTextures_eq r.st hle]
  · show r.st.m_loadedTextures = 8
    omega
  · intro i f hf
    have h1 := hnew i f hf
    simp only [htex, Nat.zero_add] at h1
    exact h1

end SceneManager

/-- C13. Every tag the scene uses resolves: starting from empty registries, after a
`LoadSceneTextures` run in which all eight image loads succeed (every file decodes with 3 or 4
channels and the array has room for the eight entries) and `DefineObjectMaterials`, the texture
tags `RenderScene` passes to `SetShaderTexture` are oak, mug, coffee, stainless, blktx, rubber,
drywall and Kali, each with a `FindTextureSlot` result between 0 and 7, and the material tags it
passes to `SetShaderMaterial` are wood, clay, glass, metal, lightplastic, cement and plastic,
each carried by exactly one entry of the material registry. -/
theorem C13_scene_tags_resolve {F : Type} [Field F] (st0 : SceneManager F)
    (decode : String → Option Image) (generated : Nat → GLuint)
    (htex : st0.m_loadedTextures = 0) (hmat : st0.m_objectMaterials = [])
    (hroom : 8 ≤ st0.m_textureIDs.length)
    (hload : ∀ f ∈ SceneManager.LoadSceneTextures.files, ∃ img, decode f.1 = some img ∧
      (img.colorChannels = 3 ∨ img.colorChannels = 4)) :
    ∃ r1 r2, st0.LoadSceneTextures decode generated = some r1 ∧
      r1.st.DefineObjectMaterials = some r2 ∧
      r2.st.m_loadedTextures = 8 ∧
      (∀ tag ∈ ((SceneManager.RenderScene.body : List (SceneManager.Stmt F)).map
          SceneManager.Stmt.textureTag?).reduceOption,
        tag ∈ ["oak", "mug", "coffee", "stainless", "blktx", "rubber", "drywall", "Kali"]) ∧
      (∀ tag ∈ ["oak", "mug", "coffee", "stainless", "blktx", "rubber", "drywall", "Kali"],
        tag ∈ ((SceneManager.RenderScene.body : List (SceneManager.Stmt F)).map
          SceneManager.Stmt.textureTag?).reduceOption ∧
        ∃ slot : Int, r2.st.FindTextureSlot tag = some { ret := slot, st := r2.st, out := [] } ∧
          0 ≤ slot ∧ slot ≤ 7) ∧
      (∀ tag ∈ ((SceneManager.RenderScene.body : List (SceneManager.Stmt F)).map
          SceneManager.Stmt.materialTag?).reduceOption,
        tag ∈ ["wood", "clay", "glass", "metal", "lightplastic", "cement", "plastic"]) ∧
      (∀ tag ∈ ["wood", "clay", "glass", "metal", "lightplastic", "cement", "plastic"],
        tag ∈ ((SceneManager.RenderScene.body : List (SceneManager.Stmt F)).map
          SceneManager.Stmt.materialTag?).reduceOption ∧
        (r2.st.m_objectMaterials.map OBJECT_MATERIAL.tag).count tag = 1) := by
  obtain ⟨r1, hr1, hcount, hcap, hmats, _, hslots⟩ :=
    SceneManager.LoadSceneTextures_spec st0 decode generated htex hroom hload
  have hle : r1.st.m_loadedTextures ≤ r1.st.m_textureIDs.length := by omega
  refine ⟨r1, { ret := (),
                st := { r1.st with m_objectMaterials :=
                  r1.st.m_objectMaterials ++ SceneManager.DefineObjectMaterials.materials },
                out := [] }, hr1, rfl, hcount, ?_, ?_, ?_, ?_⟩
  · rw [SceneManager.body_textureTags]
    set_option maxRecDepth 100000 in decide
  · have hused : ∀ tag ∈ ["oak", "mug", "coffee", "stainless", "blktx", "rubber", "drywall",
        "Kali"], tag ∈ ((SceneManager.RenderScene.body : List (SceneManager.Stmt F)).map
          SceneManager.Stmt.textureTag?).reduceOption := by
      rw [SceneManager.body_textureTags]
      set_option maxRecDepth 100000 in decide
    have hfile : ∀ tag ∈ ["oak", "mug", "coffee", "stainless", "blktx", "rubber", "drywall",
        "Kali"], ∃ (i : Nat) (f : String × String), i < 8 ∧
          SceneManager.LoadSceneTextures.files[i]? = some f ∧ f.2 = tag := by
      intro tag htag
      simp only [List.mem_cons, List.mem_singleton, List.not_mem_nil, or_false] at htag
      rcases htag with h | h | h | h | h | h | h | h <;> subst h
      · exact ⟨2, _, by decide, rfl, rfl⟩
      · exact ⟨3, _, by decide, rfl, rfl⟩
      · exact ⟨0, _, by decide, rfl, rfl⟩
      · exact ⟨1, _, by decide, rfl, rfl⟩
      · exact ⟨4, _, by decide, rfl, rfl⟩
      · exact ⟨5, _, by decide, rfl, rfl⟩
      · exact ⟨6, _, by decide, rfl, rfl⟩
      · exact ⟨7, _, by decide, rfl, rfl⟩
    intro tag htag
    refine ⟨hused tag htag, ?_⟩
    obtain ⟨i, f, hi, hf, hft⟩ := hfile tag htag
    have hmem : tag ∈ (SceneManager.loadedTags r1.st) := by
      rw [SceneManager.mem_loadedTags_iff]
      exact ⟨i, by omega, by rw [hslots i f hf]; simp [hft]⟩
    obtain ⟨j, e, hfirst⟩ := SceneManager.exists_firstAt_of_mem r1.st tag hle hmem
    have hj : j < 8 := by have := hfirst.1; omega
    refine ⟨(j : Int), ?_, by omega, by omega⟩
    have hslot := (SceneManager.lookups_of_firstAt r1.st tag j e hle hfirst).2
    simp only [SceneManager.FindTextureSlot] at hslot ⊢
    cases hl : SceneManager.FindTextureSlot.loop r1.st.m_textureIDs tag
        r1.st.m_loadedTextures 0 with
    | none => simp [hl] at hslot
    | some v =>
      rw [hl] at hslot
      simp only [Option.map_some', Option.some.injEq, Res.mk.injEq] at hslot
      simp only [Option.map_some', hslot.1]
  · rw [SceneManager.body_materialTags]
    set_option maxRecDepth 100000 in decide
  · have hused : ∀ tag ∈ ["wood", "clay", "glass", "metal", "lightplastic", "cement",
        "plastic"], tag ∈ ((SceneManager.RenderScene.body : List (SceneManager.Stmt F)).map
          SceneManager.Stmt.materialTag?).reduceOption := by
      rw [SceneManager.body_materialTags]
      set_option maxRecDepth 100000 in decide
    have hone : ∀ tag ∈ ["wood", "clay", "glass", "metal", "lightplastic", "cement",
        "plastic"], (["metal", "cement", "wood", "tile", "glass", "clay", "plastic",
          "lightplastic"] : List String).count tag = 1 := by
      decide
    intro tag htag
    refine ⟨hused tag htag, ?_⟩
    show ((r1.st.m_objectMaterials ++ SceneManager.DefineObjectMaterials.materials).map
      OBJECT_MATERIAL.tag).count tag = 1
    rw [hmats, hmat, List.nil_append, SceneManager.materials_tags]
    exact hone tag htag

/-- C13 at a concrete input: the scene with both registries empty and 16 texture slots, every
file decoding to a 512 x 512 RGB image, OpenGL handing out the names 1, 2, ... -/
theorem C13_scene_tags_resolve_witness :
    SceneManager.emptyScene.m_loadedTextures = 0 ∧
    SceneManager.emptyScene.m_objectMaterials = [] ∧
    8 ≤ SceneManager.emptyScene.m_textureIDs.length ∧
    (∀ f ∈ SceneManager.LoadSceneTextures.files, ∃ img,
      SceneManager.sampleDecode f.1 = some img ∧
      (img.colorChannels = 3 ∨ img.colorChannels = 4)) ∧
    ∃ r1 r2, SceneManager.emptyScene.LoadSceneTextures SceneManager.sampleDecode
        (fun k => k + 1) = some r1 ∧
      r1.st.DefineObjectMaterials = some r2 ∧
      r2.st.m_loadedTextures = 8 ∧
      (∀ tag ∈ ((SceneManager.RenderScene.body : List (SceneManager.Stmt ℚ)).map
          SceneManager.Stmt.textureTag?).reduceOption,
        tag ∈ ["oak", "mug", "coffee", "stainless", "blktx", "rubber", "drywall", "Kali"]) ∧
      (∀ tag ∈ ["oak", "mug", "coffee", "stainless", "blktx", "rubber", "drywall", "Kali"],
        tag ∈ ((SceneManager.RenderScene.body : List (SceneManager.Stmt ℚ)).map
          SceneManager.Stmt.textureTag?).reduceOption ∧
        ∃ slot : Int, r2.st.FindTextureSlot tag = some { ret := slot, st := r2.st, out := [] } ∧
          0 ≤ slot ∧ slot ≤ 7) ∧
      (∀ tag ∈ ((SceneManager.RenderScene.body : List (SceneManager.Stmt ℚ)).map
          SceneManager.Stmt.materialTag?).reduceOption,
        tag ∈ ["wood", "clay", "glass", "metal", "lightplastic", "cement", "plastic"]) ∧
      (∀ tag ∈ ["wood", "clay", "glass", "metal", "lightplastic", "cement", "plastic"],
        tag ∈ ((SceneManager.RenderScene.body : List (SceneManager.Stmt ℚ)).map
          SceneManager.Stmt.materialTag?).reduceOption ∧
        (r2.st.m_objectMaterials.map OBJECT_MATERIAL.tag).count tag = 1) :=
  ⟨rfl, rfl, by decide, fun _ _ => ⟨⟨512, 512, 3⟩, rfl, Or.inl rfl⟩,
    C13_scene_tags_resolve SceneManager.emptyScene SceneManager.sampleDecode (fun k => k + 1)
      rfl rfl (by decide) (fun _ _ => ⟨⟨512, 512, 3⟩, rfl, Or.inl rfl⟩)⟩

/-- C14 (as amended). Sampler slot and texture unit line up: in a well-formed registry with `n`
loaded textures, `BindGLTextures` makes, for each `i` below `n` in turn, the calls
`glActiveTexture(GL_TEXTURE0 + i)` and `glBindTexture(GL_TEXTURE_2D, name stored in entry i)`
and no other call, so that afterwards unit `i` is bound to the name of entry `i` for every `i`
below `n` and every other unit is bound as before; it leaves the state as it was. Consequently,
with a non-null shader manager and for every tag carried by a loaded entry, the sampler value
`SetShaderTexture` sends afterwards is a texture unit bound to the name stored in the entry
`FindTextureID` reads; `FindTextureID` returns that name converted to `int`, which is the
bound name itself whenever the name is below `2 ^ 31`. -/
theorem C14_slot_and_unit_line_up {F : Type} (st : SceneManager F) (hwf : st.WF) :
    ∃ r, st.BindGLTextures = some r ∧ r.st = st ∧
      r.out = ((st.m_textureIDs.take st.m_loadedTextures).enum).flatMap (fun p =>
        [Call.glActiveTexture p.1, Call.glBindTexture "GL_TEXTURE_2D" p.2.ID]) ∧
      (∀ g : GLBindings,
        (∀ (i : Nat) (e : TEXTURE_INFO), i < st.m_loadedTextures →
          st.m_textureIDs[i]? = some e → (SceneManager.glRun g r.out).bound i = e.ID) ∧
        (∀ u : Nat, st.m_loadedTextures ≤ u →
          (SceneManager.glRun g r.out).bound u = g.bound u)) ∧
      (st.m_pShaderManager = true →
        ∀ tag ∈ st.loadedTags, ∃ (j : Nat) (e : TEXTURE_INFO),
          st.FirstAt tag j e ∧
          r.st.SetShaderTexture tag = some
            { ret := (), st := st,
              out := [Call.setIntValue "bUseTexture" 1,
                      Call.setSampler2DValue "objectTexture" (j : Int)] } ∧
          (∀ g : GLBindings, (SceneManager.glRun g r.out).bound j = e.ID) ∧
          r.st.FindTextureID tag = some { ret := GLuintToInt e.ID, st := st, out := [] } ∧
          (e.ID < 2 ^ 31 → ∀ g : GLBindings,
            r.st.FindTextureID tag = some
              { ret := (((SceneManager.glRun g r.out).bound j : Nat) : Int),
                st := st, out := [] })) := by
  have hspec := SceneManager.bindLoop_spec (F := F) st.m_textureIDs st.m_loadedTextures 0
    (by have := hwf.1; omega)
  simp only [List.drop_zero, Nat.zero_add] at hspec
  obtain ⟨_, hgl⟩ := hspec
  have hbound : ∀ g : GLBindings,
      (∀ (i : Nat) (e : TEXTURE_INFO), i < st.m_loadedTextures →
        st.m_textureIDs[i]? = some e →
        (SceneManager.glRun g (((st.m_textureIDs.take st.m_loadedTextures).enum).flatMap
          (fun p => ([Call.glActiveTexture p.1, Call.glBindTexture "GL_TEXTURE_2D" p.2.ID] :
            List (Call F))))).bound i = e.ID) ∧
      (∀ u : Nat, st.m_loadedTextures ≤ u →
        (SceneManager.glRun g (((st.m_textureIDs.take st.m_loadedTextures).enum).flatMap
          (fun p => ([Call.glActiveTexture p.1, Call.glBindTexture "GL_TEXTURE_2D" p.2.ID] :
            List (Call F))))).bound u = g.bound u) := by
    intro g
    obtain ⟨hin, hout⟩ := hgl g
    exact ⟨fun i e hi he => hin i e (Nat.zero_le i) hi he, fun u hu => hout u (Or.inr hu)⟩
  refine ⟨_, SceneManager.BindGLTextures_eq st hwf.1, rfl, rfl, hbound, ?_⟩
  intro hsm tag htag
  obtain ⟨j, e, hf⟩ := SceneManager.exists_firstAt_of_mem st tag hwf.1 htag
  have hid := (SceneManager.lookups_of_firstAt st tag j e hwf.1 hf).1
  refine ⟨j, e, hf, ?_, fun g => (hbound g).1 j e hf.1 hf.2.1, hid, ?_⟩
  · simp only [SceneManager.SetShaderTexture, hsm, if_true,
      SceneManager.FindTextureSlot_eq st tag hwf.1,
      SceneManager.slotOf_of_firstAt st tag j e hwf.1 hf]
    rfl
  · intro hsmall g
    show st.FindTextureID tag = _
    rw [hid, (hbound g).1 j e hf.1 hf.2.1, SceneManager.GLuintToInt_small e.ID hsmall]

/-- C14 at a concrete input: the sample scene, whose two loaded textures `"coffee"` and
`"stainless"` carry the names 1 and 2. -/
theorem C14_slot_and_unit_line_up_witness :
    SceneManager.sampleScene.WF ∧ SceneManager.sampleScene.m_pShaderManager = true ∧
    "stainless" ∈ SceneManager.sampleScene.loadedTags ∧
    ∃ r, SceneManager.sampleScene.BindGLTextures = some r ∧ r.st = SceneManager.sampleScene ∧
      r.out = ((SceneManager.sampleScene.m_textureIDs.take
        SceneManager.sampleScene.m_loadedTextures).enum).flatMap (fun p =>
          [Call.glActiveTexture p.1, Call.glBindTexture "GL_TEXTURE_2D" p.2.ID]) ∧
      (∀ g : GLBindings,
        (∀ (i : Nat) (e : TEXTURE_INFO), i < SceneManager.sampleScene.m_loadedTextures →
          SceneManager.sampleScene.m_textureIDs[i]? = some e →
          (SceneManager.glRun g r.out).bound i = e.ID) ∧
        (∀ u : Nat, SceneManager.sampleScene.m_loadedTextures ≤ u →
          (SceneManager.glRun g r.out).bound u = g.bound u)) ∧
      ∃ (j : Nat) (e : TEXTURE_INFO),
        SceneManager.sampleScene.FirstAt "stainless" j e ∧
        r.st.SetShaderTexture "stainless" = some
          { ret := (), st := SceneManager.sampleScene,
            out := [Call.setIntValue "bUseTexture" 1,
                    Call.setSampler2DValue "objectTexture" (j : Int)] } ∧
        (∀ g : GLBindings, (SceneManager.glRun g r.out).bound j = e.ID) ∧
        r.st.FindTextureID "stainless"
          = some { ret := GLuintToInt e.ID, st := SceneManager.sampleScene, out := [] } ∧
        (e.ID < 2 ^ 31 → ∀ g : GLBindings,
          r.st.FindTextureID "stainless" = some
            { ret := (((SceneManager.glRun g r.out).bound j : Nat) : Int),
              st := SceneManager.sampleScene, out := [] }) := by
  obtain ⟨r, h1, h2, h3, h4, h5⟩ :=
    C14_slot_and_unit_line_up SceneManager.sampleScene (by decide)
  exact ⟨by decide, rfl, by decide, r, h1, h2, h3, h4, h5 rfl "stainless" (by decide)⟩

/-- C14 as stated fails for a texture name that does not fit an `int`: in the scene whose third
loaded texture `"oak"` carries the name `4294967295`, the sampler value for `"oak"` is 2 and
`BindGLTextures` binds unit 2 to `4294967295`, while `FindTextureID "oak"` returns `-1`. -/
theorem C14_counterexample_large_name :
    SceneManager.largeNameScene.WF ∧
    SceneManager.largeNameScene.m_pShaderManager = true ∧
    "oak" ∈ SceneManager.largeNameScene.loadedTags ∧
    (SceneManager.largeNameScene.FindTextureSlot "oak").map Res.ret = some 2 ∧
    SceneManager.largeNameScene.BindGLTextures.map
      (fun r => (SceneManager.glRun noBindings r.out).bound 2) = some 4294967295 ∧
    (SceneManager.largeNameScene.FindTextureID "oak").map Res.ret = some (-1) ∧
    ((-1 : Int) ≠ ((4294967295 : Nat) : Int)) := by
  refine ⟨by decide, rfl, by decide, by decide, by decide, by decide, by decide⟩

namespace SceneManager

variable {F : Type}

/-- The value of the texture flag at each draw of the trace of a sequence of statements is
determined by the kinds of the statements. -/
theorem drawsWithFlag_emitted [Field F] (T : glm.Trig F) (uninit : OBJECT_MATERIAL F)
    (st : SceneManager F) :
    ∀ (stmts : List (Stmt F)) (current : Option Int),
      (drawsWithFlag current (stmts.flatMap (emitted T uninit st))).map Prod.snd
        = flagsAtDraws current (stmts.map Stmt.kind) := by
  intro stmts
  induction stmts with
  | nil =>
    intro current
    rfl
  | cons s rest ih =>
    intro current
    rw [List.flatMap_cons]
    cases s with
    | SetTransformations sc x y z p => exact ih current
    | SetShaderColor r g b a =>
      show List.map Prod.snd (if "bUseTexture" = "bUseTexture" then drawsWithFlag _ _
        else drawsWithFlag _ _) = _
      rw [if_pos rfl]
      exact ih (some 0)
    | SetShaderTexture tag =>
      show List.map Prod.snd (if "bUseTexture" = "bUseTexture" then drawsWithFlag _ _
        else drawsWithFlag _ _) = _
      rw [if_pos rfl]
      exact ih (some 1)
    | SetTextureUVScale u v => exact ih current
    | SetShaderMaterial tag =>
      by_cases hne : st.m_objectMaterials.length > 0
      · simp only [emitted, hne, if_true]
        exact ih current
      · simp only [emitted, hne, if_false]
        exact ih current
    | Draw mesh =>
      show List.map Prod.snd ((mesh, current) ::
        drawsWithFlag current (rest.flatMap (emitted T uninit st))) = _
      rw [List.map_cons, ih current]
      rfl

/-- The number of writes of a value to the texture flag in the trace of a sequence of
statements: one write of `0` per `SetShaderColor`, one write of `1` per `SetShaderTexture`. -/
theorem flagWrites_emitted [Field F] (T : glm.Trig F) (uninit : OBJECT_MATERIAL F)
    (st : SceneManager F) :
    ∀ stmts : List (Stmt F),
      flagWrites 0 (stmts.flatMap (emitted T uninit st))
        = (stmts.map Stmt.kind).count StmtKind.shaderColor ∧
      flagWrites 1 (stmts.flatMap (emitted T uninit st))
        = (stmts.map Stmt.kind).count StmtKind.shaderTexture := by
  intro stmts
  induction stmts with
  | nil => exact ⟨rfl, rfl⟩
  | cons s rest ih =>
    rw [List.flatMap_cons]
    obtain ⟨ih0, ih1⟩ := ih
    cases s with
    | SetTransformations sc x y z p =>
      constructor
      · show flagWrites 0 (rest.flatMap (emitted T uninit st)) = _
        rw [ih0]
        rfl
      · show flagWrites 1 (rest.flatMap (emitted T uninit st)) = _
        rw [ih1]
        rfl
    | SetShaderColor r g b a =>
      constructor
      · show (if "bUseTexture" = "bUseTexture" ∧ (0 : Int) = 0 then 1 else 0)
          + flagWrites 0 (rest.flatMap (emitted T uninit st)) = _
        rw [ih0]
        simp [Stmt.kind, List.count_cons, Nat.add_comm]
      · show (if "bUseTexture" = "bUseTexture" ∧ (0 : Int) = 1 then 1 else 0)
          + flagWrites 1 (rest.flatMap (emitted T uninit st)) = _
        rw [ih1]
        simp [Stmt.kind, List.count_cons]
    | SetShaderTexture tag =>
      constructor
      · show (if "bUseTexture" = "bUseTexture" ∧ (1 : Int) = 0 then 1 else 0)
          + flagWrites 0 (rest.flatMap (emitted T uninit st)) = _
        rw [ih0]
        simp [Stmt.kind, List.count_cons]
      · show (if "bUseTexture" = "bUseTexture" ∧ (1 : Int) = 1 then 1 else 0)
          + flagWrites 1 (rest.flatMap (emitted T uninit st)) = _
        rw [ih1]
        simp [Stmt.kind, List.count_cons, Nat.add_comm]
    | SetTextureUVScale u v =>
      constructor
      · show flagWrites 0 (rest.flatMap (emitted T uninit st)) = _
        rw [ih0]
        rfl
      · show flagWrites 1 (rest.flatMap (emitted T uninit st)) = _
        rw [ih1]
        rfl
    | SetShaderMaterial tag =>
      by_cases hne : st.m_objectMaterials.length > 0
      · simp only [emitted, hne, if_true]
        constructor
        · show flagWrites 0 (rest.flatMap (emitted T uninit st)) = _
          rw [ih0]
          rfl
        · show flagWrites 1 (rest.flatMap (emitted T uninit st)) = _
          rw [ih1]
          rfl
      · simp only [emitted, hne, if_false]
        constructor
        · show flagWrites 0 (rest.flatMap (emitted T uninit st)) = _
          rw [ih0]
          rfl
        · show flagWrites 1 (rest.flatMap (emitted T uninit st)) = _
          rw [ih1]
          rfl
    | Draw mesh =>
      constructor
      · show flagWrites 0 (rest.flatMap (emitted T uninit st)) = _
        rw [ih0]
        rfl
      · show flagWrites 1 (rest.flatMap (emitted T uninit st)) = _
        rw [ih1]
        rfl

end SceneManager

/-- C15. Texturing is enabled at every draw: in a well-formed state with a non-null shader
manager, `RenderScene` runs to its end and at each of its 73 draws the value last written to
`"bUseTexture"` is true (`1`). The flag is written `0` exactly twice, by the `SetShaderColor`
calls of the two walls (draws number 68 and 69), where the statements before the draw are
`SetTransformations`, `SetShaderColor`, `SetShaderTexture`, `SetTextureUVScale`,
`SetShaderMaterial`: the `SetShaderTexture` call overwrites the `0` with `1` before the draw. -/
theorem C15_texturing_enabled_at_draw {F : Type} [Field F] (T : glm.Trig F)
    (uninit : OBJECT_MATERIAL F) (st : SceneManager F) (hwf : st.WF)
    (hsm : st.m_pShaderManager = true) :
    ∃ r, st.RenderScene T uninit = some r ∧
      (SceneManager.drawsWithFlag none r.out).map Prod.snd = List.replicate 73 (some 1) ∧
      SceneManager.flagWrites 0 r.out = 2 ∧
      SceneManager.flagWrites 1 r.out = 73 ∧
      (SceneManager.drawSegments [] ((SceneManager.RenderScene.body :
          List (SceneManager.Stmt F)).map SceneManager.Stmt.kind))[67]?
        = some [SceneManager.StmtKind.transformations, SceneManager.StmtKind.shaderColor,
            SceneManager.StmtKind.shaderTexture, SceneManager.StmtKind.textureUVScale,
            SceneManager.StmtKind.shaderMaterial] ∧
      (SceneManager.drawSegments [] ((SceneManager.RenderScene.body :
          List (SceneManager.Stmt F)).map SceneManager.Stmt.kind))[68]?
        = some [SceneManager.StmtKind.transformations, SceneManager.StmtKind.shaderColor,
            SceneManager.StmtKind.shaderTexture, SceneManager.StmtKind.textureUVScale,
            SceneManager.StmtKind.shaderMaterial] := by
  refine ⟨_, SceneManager.run_eq_emitted T uninit st hwf hsm _, ?_, ?_, ?_, ?_, ?_⟩
  · show (SceneManager.drawsWithFlag none (SceneManager.RenderScene.body.flatMap
      (SceneManager.emitted T uninit st))).map Prod.snd = _
    rw [SceneManager.drawsWithFlag_emitted, SceneManager.body_kinds]
    set_option maxRecDepth 100000 in decide
  · show SceneManager.flagWrites 0 (SceneManager.RenderScene.body.flatMap
      (SceneManager.emitted T uninit st)) = 2
    rw [(SceneManager.flagWrites_emitted T uninit st _).1, SceneManager.body_kinds]
    set_option maxRecDepth 100000 in decide
  · show SceneManager.flagWrites 1 (SceneManager.RenderScene.body.flatMap
      (SceneManager.emitted T uninit st)) = 73
    rw [(SceneManager.flagWrites_emitted T uninit st _).2, SceneManager.body_kinds]
    set_option maxRecDepth 100000 in decide
  · rw [SceneManager.body_kinds]
    set_option maxRecDepth 100000 in decide
  · rw [SceneManager.body_kinds]
    set_option maxRecDepth 100000 in decide

/-- C15 at a concrete input: the sample scene. -/
theorem C15_texturing_enabled_witness :
    SceneManager.sampleScene.WF ∧ SceneManager.sampleScene.m_pShaderManager = true ∧
    ∃ r, SceneManager.sampleScene.RenderScene glm.sampleTrig SceneManager.sampleUninit
        = some r ∧
      (SceneManager.drawsWithFlag none r.out).map Prod.snd = List.replicate 73 (some 1) ∧
      SceneManager.flagWrites 0 r.out = 2 ∧
      SceneManager.flagWrites 1 r.out = 73 ∧
      (SceneManager.drawSegments [] ((SceneManager.RenderScene.body :
          List (SceneManager.Stmt ℚ)).map SceneManager.Stmt.kind))[67]?
        = some [SceneManager.StmtKind.transformations, SceneManager.StmtKind.shaderColor,
            SceneManager.StmtKind.shaderTexture, SceneManager.StmtKind.textureUVScale,
            SceneManager.StmtKind.shaderMaterial] ∧
      (SceneManager.drawSegments [] ((SceneManager.RenderScene.body :
          List (SceneManager.Stmt ℚ)).map SceneManager.Stmt.kind))[68]?
        = some [SceneManager.StmtKind.transformations, SceneManager.StmtKind.shaderColor,
            SceneManager.StmtKind.shaderTexture, SceneManager.StmtKind.textureUVScale,
            SceneManager.StmtKind.shaderMaterial] :=
  ⟨by decide, rfl, C15_texturing_enabled_at_draw glm.sampleTrig SceneManager.sampleUninit
    SceneManager.sampleScene (by decide) rfl⟩
